import Mathlib

set_option maxRecDepth 10000
set_option maxHeartbeats 1000000

/-!
Shallow embedding of `src/SyMBac/cell_simulation.py`.

The physics engine (pymunk), the statistics library (scipy `norm`) and the
windowing library (pyglet) are external collaborators: the physics step is
modelled as an oracle that moves dynamic bodies, `norm.rvs` as a stream of
rational samples, and `norm.ppf` as a function into `WithBot Frac` (so that
`ppf 0 = ⊥` can model the value negative infinity).  Floating point numbers
are modelled as rationals.  The `Cell` class and `trench_creator` live in
repository files that are not part of `src/`, so they are modelled from the
spec where indicated.  Only the headless (`show_window = False`) driver of
`run_simulation` is embedded; the pyglet window branch is out of scope.
-/

/-- An executable rational number modelling a Python float: a numerator and
a denominator (kept positive by every operation below, starting from
integer literals).  A custom carrier is used instead of Mathlib's `ℚ` so
that every simulation run can be evaluated inside the kernel. -/
structure Frac where
  n : ℤ
  d : ℤ
deriving DecidableEq

instance (k : ℕ) : OfNat Frac k :=
  ⟨⟨(k : ℤ), 1⟩⟩

/-- Addition of fractions (no normalization needed for our purposes). -/
def qadd (a b : Frac) : Frac :=
  ⟨a.n * b.d + b.n * a.d, a.d * b.d⟩

instance : Add Frac :=
  ⟨qadd⟩

/-- Multiplication of fractions. -/
def qmul (a b : Frac) : Frac :=
  ⟨a.n * b.n, a.d * b.d⟩

instance : Mul Frac :=
  ⟨qmul⟩

/-- Negation of a fraction. -/
def qneg (a : Frac) : Frac :=
  ⟨-a.n, a.d⟩

instance : Neg Frac :=
  ⟨qneg⟩

instance : Sub Frac :=
  ⟨fun a b => qadd a (qneg b)⟩

/-- Reciprocal, keeping the denominator positive; like Python's rational
types we send 0 to 0 (the source never inverts 0). -/
def qinv (a : Frac) : Frac :=
  if a.n < 0 then ⟨-a.d, -a.n⟩ else if a.n = 0 then ⟨0, 1⟩ else ⟨a.d, a.n⟩

instance : Div Frac :=
  ⟨fun a b => qmul a (qinv b)⟩

/-- Comparison by cross-multiplication (valid because all denominators our
operations produce are positive). -/
def qle (a b : Frac) : Bool :=
  decide (a.n * b.d ≤ b.n * a.d)

/-- Strict comparison by cross-multiplication. -/
def qlt (a b : Frac) : Bool :=
  decide (a.n * b.d < b.n * a.d)

instance : LE Frac :=
  ⟨fun a b => qle a b = true⟩

instance : LT Frac :=
  ⟨fun a b => qlt a b = true⟩

instance : @DecidableRel Frac (· ≤ ·) :=
  fun a b => inferInstanceAs (Decidable (qle a b = true))

instance : @DecidableRel Frac (· < ·) :=
  fun a b => inferInstanceAs (Decidable (qlt a b = true))

/-- A pymunk rigid body: its body type (`0` = dynamic, `2` = static), its
position and its angle.  Bodies live in a heap keyed by an identity `bid`,
mirroring Python object identity, so a body keeps existing (and keeps its
position) after it is removed from the space. -/
structure PBody where
  btype : ℕ
  posX : Frac
  posY : Frac
  angle : Frac
deriving DecidableEq

/-- A pymunk shape: its identity `sid` and a reference to its owning body
(`shape.body` in Python), by body identity. -/
structure PShape where
  sid : ℕ
  bodyBid : ℕ
deriving DecidableEq

/-- An observable event on the pymunk space, recorded in order: adding a
body/shape pair, removing a body, removing a shape, or stepping the world by
a time delta. -/
inductive Ev where
  | addPair (bid sid : ℕ)
  | removeBody (bid : ℕ)
  | removeShape (sid : ℕ)
  | step (dtv : Frac)
deriving DecidableEq

/-- The pymunk space: the insertion-ordered list of body identities and the
insertion-ordered list of shapes it currently holds, plus the ambient
`historic_N_cells` counter that `run_simulation` attaches to the space. -/
structure PmSpace where
  bodies : List ℕ
  shapes : List PShape
  historicNCells : ℕ
deriving DecidableEq

/-- Modelled from the spec: the `Cell` entity of `SyMBac/cell.py`, which is
not part of `src/`.  Fields follow the constructor call in
`run_simulation` (length, width, position, angle, dt, growth-rate constant,
max length with mean and variance, width mean and variance, lysis
probability, mask label, generation, division count, mother link) plus the
daughter back-reference, the handle to the cell's current body/shape pair,
and the frame stamp `t` set at finalization. -/
structure Cell where
  length : Frac
  width : Frac
  posX : Frac
  posY : Frac
  angle : Frac
  dtv : Frac
  growthRateConstant : Frac
  maxLength : Frac
  maxLengthMean : Frac
  maxLengthVar : Frac
  widthVar : Frac
  widthMean : Frac
  motherCid : Option ℕ
  daughterCid : Option ℕ
  lysisP : Frac
  maskLabel : ℕ
  generation : ℕ
  nDivisions : ℕ
  bodyBid : ℕ
  shapeSid : ℕ
  t : Option ℕ
deriving DecidableEq

/-- The whole mutable state of one simulation run: the heaps of body and
cell objects (keyed by identity), the pymunk space, the live cell list
`cells`, the `historic_cells` list, the recorded `cell_timeseries`
(deep copies, hence plain values), the frame counter `x[0]`, counters for
consumed oracle draws and fresh identities, the persisted artifacts, and the
chronological trace of space events. -/
structure SimState where
  bodyHeap : List (ℕ × PBody)
  cellHeap : List (ℕ × Cell)
  space : PmSpace
  cells : List ℕ
  historicCells : List ℕ
  cellTimeseries : List (List Cell)
  x : ℕ
  stepCount : ℕ
  rvsCount : ℕ
  divDrawCount : ℕ
  nextBid : ℕ
  nextSid : ℕ
  nextCid : ℕ
  pickleWrites : ℕ
  pickledTimeseries : Option (List (List Cell))
  pickledSpace : Option PmSpace
  trace : List Ev

/-- The external world: `move` is the black-box physics engine's effect of
one `space.step` on a dynamic body's position/angle (indexed by the global
step count and the body identity), `rvs` is the stream of `norm.rvs()`
samples, `ppf` is `norm.ppf` (with `⊥` standing for negative infinity),
`divDraw` is the stream of Gaussian draws used to resample a daughter's
parameters, and `sqrtQ` models `np.sqrt` on the scale factor. -/
structure Env where
  move : ℕ → ℕ → Frac × Frac × Frac → Frac × Frac × Frac
  rvs : ℕ → Frac
  ppf : Frac → WithBot Frac
  divDraw : ℕ → Frac
  sqrtQ : Frac → Frac

/-- The per-run parameters consumed by `step_and_update`: the time step
`dt`, the number of main physics iterations, the trench y-limit and the
configured simulation length. -/
structure Params where
  dtv : Frac
  physIters : ℕ
  ylim : Frac
  simLength : ℕ

/-- Fallback body used by total heap lookup (never reached on the states
built by the embedded code). -/
def defaultBody : PBody :=
  { btype := 0, posX := 0, posY := 0, angle := 0 }

/-- Fallback cell used by total heap lookup (never reached on the states
built by the embedded code). -/
def defaultCell : Cell :=
  { length := 0, width := 0, posX := 0, posY := 0, angle := 0, dtv := 0,
    growthRateConstant := 0, maxLength := 0, maxLengthMean := 0,
    maxLengthVar := 0, widthVar := 0, widthMean := 0, motherCid := none,
    daughterCid := none, lysisP := 0, maskLabel := 0, generation := 0,
    nDivisions := 0, bodyBid := 0, shapeSid := 0, t := none }

/-- Association-list lookup in the body heap. -/
def findBody : List (ℕ × PBody) → ℕ → Option PBody
  | [], _ => none
  | kv :: rest, bid => if kv.1 = bid then some kv.2 else findBody rest bid

/-- Association-list lookup in the cell heap. -/
def findCell : List (ℕ × Cell) → ℕ → Option Cell
  | [], _ => none
  | kv :: rest, cid => if kv.1 = cid then some kv.2 else findCell rest cid

/-- Dereference a body identity (Python attribute access on the object). -/
def getBody (s : SimState) (bid : ℕ) : PBody :=
  (findBody s.bodyHeap bid).getD defaultBody

/-- Dereference a cell identity (Python attribute access on the object). -/
def getCell (s : SimState) (cid : ℕ) : Cell :=
  (findCell s.cellHeap cid).getD defaultCell

/-- In-place mutation of one cell object in the heap. -/
def updateCellHeap (heap : List (ℕ × Cell)) (cid : ℕ) (f : Cell → Cell) :
    List (ℕ × Cell) :=
  heap.map (fun kv => if kv.1 = cid then (kv.1, f kv.2) else kv)

/-- The effect of one `space.step` on a single heap entry: a dynamic body
currently in the space is moved by the engine oracle, every other body is
left alone. -/
def stepBody (env : Env) (k : ℕ) (inSpace : List ℕ) (bid : ℕ) (b : PBody) :
    PBody :=
  if bid ∈ inSpace ∧ b.btype = 0 then
    let m := env.move k bid (b.posX, b.posY, b.angle)
    { b with posX := m.1, posY := m.2.1, angle := m.2.2 }
  else b

/-- `space.step(dtv)`: advances all dynamic bodies held by the space via the
engine oracle, bumps the global step counter and records the event. -/
def spaceStep (env : Env) (dtv : Frac) (s : SimState) : SimState :=
  { s with
    bodyHeap := s.bodyHeap.map
      (fun kv => (kv.1, stepBody env s.stepCount s.space.bodies kv.1 kv.2)),
    stepCount := s.stepCount + 1,
    trace := s.trace ++ [Ev.step dtv] }

/-- `space.add(body, shape)`. -/
def spaceAddPair (s : SimState) (bid : ℕ) (sh : PShape) : SimState :=
  { s with
    space := { s.space with
      bodies := s.space.bodies ++ [bid],
      shapes := s.space.shapes ++ [sh] },
    trace := s.trace ++ [Ev.addPair bid sh.sid] }

/-- `space.remove(body)`: a no-op when the body is absent. -/
def spaceRemoveBody (s : SimState) (bid : ℕ) : SimState :=
  { s with
    space := { s.space with
      bodies := s.space.bodies.filter (fun b => b ≠ bid) },
    trace := s.trace ++ [Ev.removeBody bid] }

/-- `space.remove(shape)`: a no-op when the shape is absent. -/
def spaceRemoveShape (s : SimState) (sid : ℕ) : SimState :=
  { s with
    space := { s.space with
      shapes := s.space.shapes.filter (fun sh => sh.sid ≠ sid) },
    trace := s.trace ++ [Ev.removeShape sid] }

/-- `space.remove(body, shape)`. -/
def spaceRemovePair (s : SimState) (bid sid : ℕ) : SimState :=
  spaceRemoveShape (spaceRemoveBody s bid) sid

/-- Modelled from the spec: `Cell.update_length` of the absent
`SyMBac/cell.py` — one discrete step of the first-order exponential growth
law with the cell's growth-rate constant and time step. -/
def grownCell (c : Cell) : Cell :=
  { c with length := c.length * (1 + c.growthRateConstant * c.dtv) }

/-- `cell.update_length()` as a heap mutation. -/
def update_length (s : SimState) (cid : ℕ) : SimState :=
  { s with cellHeap := updateCellHeap s.cellHeap cid grownCell }

/-- Modelled from the spec: `Cell.is_dividing` of the absent
`SyMBac/cell.py` — true iff the current length has reached the per-cell
sampled maximum length. -/
def is_dividing (c : Cell) : Bool :=
  decide (c.maxLength ≤ c.length)

/-- Allocate a fresh body/shape pair for a cell at the given pose (the
objects a `create_pm_cell` call constructs); the pair is not yet added to
the space. -/
def allocBodyShape (s : SimState) (px py ang : Frac) : (ℕ × ℕ) × SimState :=
  let bid := s.nextBid
  let sid := s.nextSid
  ((bid, sid),
   { s with
     bodyHeap := s.bodyHeap ++
       [(bid, { btype := 0, posX := px, posY := py, angle := ang })],
     nextBid := bid + 1,
     nextSid := sid + 1 })

/-- Modelled from the spec: the non-dividing branch of
`Cell.create_pm_cell` of the absent `SyMBac/cell.py` — recompute a fresh
body/shape pair for the current geometric state and store the handles on
the cell. -/
def create_pm_cell_nondiv (s : SimState) (cid : ℕ) : SimState :=
  let c := getCell s cid
  let pr := allocBodyShape s c.posX c.posY c.angle
  { pr.2 with
    cellHeap := updateCellHeap pr.2.cellHeap cid
      (fun c0 => { c0 with bodyBid := pr.1.1, shapeSid := pr.1.2 }) }

/-- Modelled from the spec: the daughter configuration bundle returned by
the dividing branch of `Cell.create_pm_cell` (the `daughter_details`
dictionary with more than two entries). -/
structure DaughterDetails where
  length : Frac
  width : Frac
  posX : Frac
  posY : Frac
  angle : Frac
  dtv : Frac
  growthRateConstant : Frac
  maxLength : Frac
  maxLengthMean : Frac
  maxLengthVar : Frac
  widthVar : Frac
  widthMean : Frac
  lysisP : Frac
  maskLabel : ℕ
  generation : ℕ
deriving DecidableEq

/-- Modelled from the spec: the dividing branch of `Cell.create_pm_cell` of
the absent `SyMBac/cell.py` — the mother's length resets to half, she gets
a fresh body/shape pair, the ambient historic-cell counter on the space is
bumped, and a daughter configuration bundle is returned whose max length
and width are independently resampled from the seeding distributions, whose
generation is the mother's plus one, and whose pose is adjacent to the
mother's tail. -/
def create_pm_cell_div (env : Env) (s : SimState) (cid : ℕ) :
    DaughterDetails × SimState :=
  let c := getCell s cid
  let newLen := c.length / 2
  let pr := allocBodyShape s c.posX c.posY c.angle
  let s2 := { pr.2 with
    cellHeap := updateCellHeap pr.2.cellHeap cid
      (fun c0 => { c0 with
        length := newLen, bodyBid := pr.1.1, shapeSid := pr.1.2,
        nDivisions := c0.nDivisions + 1 }) }
  let dMaxLen := c.maxLengthMean + c.maxLengthVar * env.divDraw s2.divDrawCount
  let dWidth := c.widthMean + c.widthVar * env.divDraw (s2.divDrawCount + 1)
  let s3 := { s2 with
    divDrawCount := s2.divDrawCount + 2,
    space := { s2.space with historicNCells := s2.space.historicNCells + 1 } }
  ({ length := newLen, width := dWidth, posX := c.posX,
     posY := c.posY - newLen, angle := c.angle, dtv := c.dtv,
     growthRateConstant := c.growthRateConstant, maxLength := dMaxLen,
     maxLengthMean := c.maxLengthMean, maxLengthVar := c.maxLengthVar,
     widthVar := c.widthVar, widthMean := c.widthMean, lysisP := c.lysisP,
     maskLabel := s3.space.historicNCells, generation := c.generation + 1 },
   s3)

/-- Modelled from the spec: the `Cell` constructor applied to a daughter
configuration bundle (`Cell(**daughter_details)`): allocates a fresh cell
object with a fresh body/shape pair; it does not register anything with the
space. -/
def newCellFromDetails (s : SimState) (d : DaughterDetails) :
    ℕ × SimState :=
  let cid := s.nextCid
  let pr := allocBodyShape { s with nextCid := cid + 1 } d.posX d.posY d.angle
  (cid,
   { pr.2 with
     cellHeap := pr.2.cellHeap ++
       [(cid,
         { length := d.length, width := d.width, posX := d.posX,
           posY := d.posY, angle := d.angle, dtv := d.dtv,
           growthRateConstant := d.growthRateConstant,
           maxLength := d.maxLength, maxLengthMean := d.maxLengthMean,
           maxLengthVar := d.maxLengthVar, widthVar := d.widthVar,
           widthMean := d.widthMean, motherCid := none, daughterCid := none,
           lysisP := d.lysisP, maskLabel := d.maskLabel,
           generation := d.generation, nDivisions := 0,
           bodyBid := pr.1.1, shapeSid := pr.1.2, t := none })] })

/-- `cell_adder(cell, space)`: `space.add(cell.body, cell.shape)`. -/
def cell_adder (s : SimState) (cid : ℕ) : SimState :=
  let c := getCell s cid
  spaceAddPair s c.bodyBid { sid := c.shapeSid, bodyBid := c.bodyBid }

/-- The inner `for _ in range(150): space.step(1/100)` settling loop of
`update_pm_cells`, generalized over the iteration count. -/
def settleSteps (env : Env) : ℕ → SimState → SimState
  | 0, s => s
  | n + 1, s => settleSteps env n (spaceStep env (1 / 100) s)

/-- One iteration of the `for cell in cells` loop body of
`update_pm_cells`: update the length, divide if ready (constructing the
daughter, linking mother and daughter, and appending the daughter to the
live list), otherwise just rebuild the body/shape pair; then register the
cell's pair with the space and run 150 fine settling steps. -/
def processCell (env : Env) (s : SimState) (cid : ℕ) : SimState :=
  let s0 := update_length s cid
  let s4 :=
    if is_dividing (getCell s0 cid) then
      let pr := create_pm_cell_div env s0 cid
      let pr2 := newCellFromDetails pr.2 pr.1
      let s2 := { pr2.2 with
        cellHeap := updateCellHeap pr2.2.cellHeap cid
          (fun c0 => { c0 with daughterCid := some pr2.1 }) }
      let s3 := { s2 with
        cellHeap := updateCellHeap s2.cellHeap pr2.1
          (fun c0 => { c0 with motherCid := some cid }) }
      { s3 with cells := s3.cells ++ [pr2.1] }
    else create_pm_cell_nondiv s0 cid
  settleSteps env 150 (cell_adder s4 cid)

/-- The `for cell in cells` loop of `update_pm_cells` with Python's live
list-iterator semantics: the index advances over the current list, so
daughters appended during the loop are themselves processed.  `fuel` bounds
the number of iterations (the Python loop has no such bound and would
simply keep iterating). -/
def update_pm_cells_go (env : Env) : ℕ → ℕ → SimState → SimState
  | 0, _, s => s
  | fuel + 1, i, s =>
    match s.cells.get? i with
    | some cid => update_pm_cells_go env fuel (i + 1) (processCell env s cid)
    | none => s

/-- `update_pm_cells(cells, space)`. -/
def update_pm_cells (env : Env) (fuel : ℕ) (s : SimState) : SimState :=
  update_pm_cells_go env fuel 0 s

/-- The collect-then-apply variant of `update_pm_cells` demanded by the
spec's iteration discipline: the list of cells to process is captured
before the loop starts, so daughters appended during the pass are not
processed within the same pass.  This definition follows the spec's words
and exists only to be compared with `update_pm_cells`. -/
def update_pm_cells_collect_apply (env : Env) (s : SimState) : SimState :=
  s.cells.foldl (fun st cid => processCell env st cid) s

/-- The body-removal half of the apply phase of `wipe_space`. -/
def applyRemoveBodies : List ℕ → SimState → SimState
  | [], s => s
  | b :: bs, s => applyRemoveBodies bs (spaceRemoveBody s b)

/-- The shape-removal half of the apply phase of `wipe_space`. -/
def applyRemoveShapes : List PShape → SimState → SimState
  | [], s => s
  | sh :: rest, s => applyRemoveShapes rest (spaceRemoveShape s sh.sid)

/-- The collect phase of `wipe_space`: zip the space's body list with its
shape list and keep the pairs whose body is dynamic (`body_type == 0`). -/
def wipePairs (s : SimState) : List (ℕ × PShape) :=
  (s.space.bodies.zip s.space.shapes).filter
    (fun pr => decide ((getBody s pr.1).btype = 0))

/-- `wipe_space(space)`: zip the space's body list with its shape list,
collect the pairs whose body is dynamic (`body_type == 0`), then remove all
the collected bodies and afterwards all the collected shapes. -/
def wipe_space (s : SimState) : SimState :=
  applyRemoveShapes ((wipePairs s).map Prod.snd)
    (applyRemoveBodies ((wipePairs s).map Prod.fst) s)

/-- Modelled from the spec: `Cell.update_position` of the absent
`SyMBac/cell.py` — sync the cell's position and angle attributes from its
physics body. -/
def update_position (s : SimState) (cid : ℕ) : SimState :=
  let c := getCell s cid
  let b := getBody s c.bodyBid
  { s with
    cellHeap := updateCellHeap s.cellHeap cid
      (fun c0 => { c0 with posX := b.posX, posY := b.posY, angle := b.angle }) }

/-- `update_cell_positions(cells)`. -/
def update_cell_positions (s : SimState) : SimState :=
  s.cells.foldl (fun st cid => update_position st cid) s

/-- The out-of-bounds test of `step_and_update`:
`position.y < 0 or position.y > ylim`. -/
def oobY (p : Params) (y : Frac) : Bool :=
  decide (y < 0) || decide (p.ylim < y)

/-- `shape.body.position.y`. -/
def shapeBodyY (s : SimState) (sh : PShape) : Frac :=
  (getBody s sh.bodyBid).posY

/-- The apply phase of the world-level removal pass: for each collected
`(shape.body, shape)` pair, `space.remove(body, shape)` followed
immediately by one `space.step(dt)`. -/
def applyShapeRemovals (env : Env) (p : Params) :
    List PShape → SimState → SimState
  | [], s => s
  | sh :: rest, s =>
    applyShapeRemovals env p rest
      (spaceStep env p.dtv (spaceRemovePair s sh.bodyBid sh.sid))

/-- The first pass of `step_and_update`: iterate over a snapshot of
`space.shapes`, collect the shapes whose body's y-position lies outside the
trench bounds, then remove each with its body, stepping the world once per
removal. -/
def removeOOBShapesPass (env : Env) (p : Params) (s : SimState) : SimState :=
  applyShapeRemovals env p
    (s.space.shapes.filter (fun sh => oobY p (shapeBodyY s sh))) s

/-- The collect phase of the logical cell removal pass: walk the live cell
list, marking a cell when its body's y-position is out of bounds, or
otherwise when the lysis trial `norm.rvs() <= norm.ppf(cell.lysis_p)`
fires and more than one cell is currently live.  The second component
threads the count of consumed `norm.rvs()` draws (a draw happens exactly
when the bounds branch did not fire). -/
def collectStep (env : Env) (p : Params) (s : SimState)
    (acc : List ℕ × ℕ) (cid : ℕ) : List ℕ × ℕ :=
  let c := getCell s cid
  let y := (getBody s c.bodyBid).posY
  if oobY p y then (acc.1 ++ [cid], acc.2)
  else if decide ((env.rvs acc.2 : WithBot Frac) ≤ env.ppf c.lysisP)
      && decide (1 < s.cells.length) then
    (acc.1 ++ [cid], acc.2 + 1)
  else (acc.1, acc.2 + 1)

/-- The whole collect phase: fold `collectStep` over the live cell list,
starting from no candidates and the current draw count. -/
def collectCellsToRemove (env : Env) (p : Params) (s : SimState) :
    List ℕ × ℕ :=
  s.cells.foldl (collectStep env p s) ([], s.rvsCount)

/-- Python's `list.remove`: delete the first occurrence. -/
def removeFirstCell : List ℕ → ℕ → List ℕ
  | [], _ => []
  | a :: as, cid => if a = cid then as else a :: removeFirstCell as cid

/-- The apply phase of the logical cell removal pass: for each marked cell,
if it is still in the live list, remove it and step the world once. -/
def applyCellRemovals (env : Env) (p : Params) :
    List ℕ → SimState → SimState
  | [], s => s
  | cid :: rest, s =>
    if cid ∈ s.cells then
      applyCellRemovals env p rest
        (spaceStep env p.dtv { s with cells := removeFirstCell s.cells cid })
    else applyCellRemovals env p rest s

/-- The combined out-of-bounds and lysis removal pass of `step_and_update`
over the logical cell list (collect, then apply). -/
def removeCellsPass (env : Env) (p : Params) (s : SimState) : SimState :=
  let col := collectCellsToRemove env p s
  applyCellRemovals env p col.1 { s with rvsCount := col.2 }

/-- The main physics loop `for _ in range(phys_iters): space.step(dt)`. -/
def physItersLoop (env : Env) (p : Params) : ℕ → SimState → SimState
  | 0, s => s
  | n + 1, s => physItersLoop env p n (spaceStep env p.dtv s)

/-- The deep copy `deepcopy(cells)` appended to the time series: the list
of the live cells' current attribute values, fully detached from the heap. -/
def liveSnapshot (s : SimState) : List Cell :=
  s.cells.map (fun cid => getCell s cid)

/-- The recording step `if x[0] > 1: cell_timeseries.append(deepcopy(cells))`. -/
def recordFrame (s : SimState) : SimState :=
  if 1 < s.x then
    { s with cellTimeseries := s.cellTimeseries ++ [liveSnapshot s] }
  else s

/-- The finalization step: when `x[0] == sim_length - 1`, pickle the time
series and the space and return without touching the counter (the
`pyglet.app.exit()` call is a no-op in the headless driver); otherwise
increment `x[0]`. -/
def finalizeFrame (p : Params) (s : SimState) : SimState :=
  if (s.x : ℤ) = (p.simLength : ℤ) - 1 then
    { s with
      pickledTimeseries := some s.cellTimeseries,
      pickledSpace := some s.space,
      pickleWrites := s.pickleWrites + 1 }
  else { s with x := s.x + 1 }

/-- The mutation phase of `step_and_update`, in source order: world
out-of-bounds removal, logical cell removal, `wipe_space`,
`update_pm_cells`, `phys_iters` main steps, `update_cell_positions`. -/
def coreStep (env : Env) (fuel : ℕ) (p : Params) (s : SimState) : SimState :=
  update_cell_positions
    (physItersLoop env p p.physIters
      (update_pm_cells env fuel
        (wipe_space
          (removeCellsPass env p
            (removeOOBShapesPass env p s)))))

/-- `step_and_update`: the per-frame algorithm — the mutation phase
followed by recording and finalization. -/
def step_and_update (env : Env) (fuel : ℕ) (p : Params) (s : SimState) :
    SimState :=
  finalizeFrame p (recordFrame (coreStep env fuel p s))

/-- The empty pymunk space of `create_space` (with its
`historic_N_cells = 0`) wrapped in an otherwise pristine run state. -/
def create_space : SimState :=
  { bodyHeap := [], cellHeap := [],
    space := { bodies := [], shapes := [], historicNCells := 0 },
    cells := [], historicCells := [], cellTimeseries := [], x := 0,
    stepCount := 0, rvsCount := 0, divDrawCount := 0, nextBid := 0,
    nextSid := 0, nextCid := 0, pickleWrites := 0,
    pickledTimeseries := none, pickledSpace := none, trace := [] }

/-- Add one static boundary segment (its own static body plus its shape)
to the space. -/
def addStaticSegment (s : SimState) (px py : Frac) : SimState :=
  let bid := s.nextBid
  let sid := s.nextSid
  let s1 := { s with
    bodyHeap := s.bodyHeap ++
      [(bid, { btype := 2, posX := px, posY := py, angle := 0 })],
    nextBid := bid + 1, nextSid := sid + 1 }
  spaceAddPair s1 bid { sid := sid, bodyBid := bid }

/-- Modelled from the spec: `trench_creator` of the absent
`SyMBac/trench_geometry.py` — populates the static trench boundary
geometry (two walls and a pole, each a static body/shape pair) into the
space at the given bottom-left corner. -/
def trench_creator (tw tl px py : Frac) (s : SimState) : SimState :=
  addStaticSegment (addStaticSegment (addStaticSegment s px py) (px + tw) py)
    px (py + tl)

/-- The headless driver loop `for _ in range(sim_length + 2)`, generalized
over the iteration count. -/
def iterateSteps (env : Env) (fuel : ℕ) (p : Params) :
    ℕ → SimState → SimState
  | 0, s => s
  | n + 1, s => iterateSteps env fuel p n (step_and_update env fuel p s)

/-- The frame-stamping loop at the end of `run_simulation`: give every cell
of every recorded frame its frame index. -/
def stampFrames : ℕ → List (List Cell) → List (List Cell)
  | _, [] => []
  | f, frame :: rest =>
    frame.map (fun c => { c with t := some f }) :: stampFrames (f + 1) rest

/-- `run_simulation` in its headless (`show_window = False`) form: build
the space and the scaled trench, seed the initial cell at the hard-coded
pose of the source, run `sim_length + 2` iterations of `step_and_update`,
then stamp frame indices.  The gravity argument is absorbed by the physics
oracle and the save directory by the pickle fields. -/
def run_simulation (env : Env) (fuel : ℕ)
    (trench_length trench_width cell_max_length cell_width : Frac)
    (sim_length : ℕ) (pix_mic_conv : Frac) (phys_iters : ℕ)
    (max_length_var width_var resize_amount lysis_p : Frac) : SimState :=
  let dtv : Frac := 1 / 20
  let pmc := 1 / pix_mic_conv
  let scale_factor := pmc * resize_amount
  let tl := trench_length * scale_factor
  let tw := trench_width * scale_factor
  let s0 := trench_creator tw tl 35 0 create_space
  let s1 := { s0 with space := { s0.space with historicNCells := 1 } }
  let pr := newCellFromDetails s1
    { length := cell_max_length * (1 / 2) * scale_factor,
      width := cell_width * scale_factor, posX := 40, posY := 100,
      angle := 4 / 5, dtv := dtv, growthRateConstant := 1,
      maxLength := cell_max_length * scale_factor,
      maxLengthMean := cell_max_length * scale_factor,
      maxLengthVar := max_length_var * env.sqrtQ scale_factor,
      widthVar := width_var * env.sqrtQ scale_factor,
      widthMean := cell_width * scale_factor, lysisP := lysis_p,
      maskLabel := 1, generation := 0 }
  let s2 := { pr.2 with
    cells := [pr.1], historicCells := [pr.1], x := 0, cellTimeseries := [] }
  let p : Params :=
    { dtv := dtv, physIters := phys_iters, ylim := tl,
      simLength := sim_length }
  let sN := iterateSteps env fuel p (sim_length + 2) s2
  { sN with cellTimeseries := stampFrames 0 sN.cellTimeseries }


/-! ### Concrete environments and states used in the closed theorems -/

/-- A concrete external world: the physics oracle leaves bodies where they
are, every `norm.rvs()` draw is 0, `norm.ppf` is negative infinity
everywhere (consistent with `ppf 0`), daughter resampling draws are 0 and
the square root oracle returns 1. -/
def envId : Env :=
  { move := fun _ _ pr => pr, rvs := fun _ => 0, ppf := fun _ => ⊥,
    divDraw := fun _ => 0, sqrtQ := fun _ => 1 }

/-- A concrete external world whose lysis trial always fires: every sample
is -1 and every `norm.ppf` value is 0, so `rvs <= ppf(p)` holds for every
probability. -/
def envLys : Env :=
  { move := fun _ _ pr => pr, rvs := fun _ => 0 - 1,
    ppf := fun _ => ((0 : Frac) : WithBot Frac),
    divDraw := fun _ => 0, sqrtQ := fun _ => 1 }

/-- A concrete non-dividing cell sitting at y = 50 with body identity 10
and shape identity 20. -/
def cellA : Cell :=
  { length := 1, width := 1, posX := 40, posY := 50, angle := 0,
    dtv := 1 / 20, growthRateConstant := 1, maxLength := 100,
    maxLengthMean := 100, maxLengthVar := 0, widthVar := 0, widthMean := 1,
    motherCid := none, daughterCid := none, lysisP := 0, maskLabel := 1,
    generation := 0, nDivisions := 0, bodyBid := 10, shapeSid := 20,
    t := none }

/-- The same cell at its division threshold (length = max length = 2), so
that the growth step pushes it over. -/
def cellB : Cell :=
  { cellA with length := 2, maxLength := 2 }

/-- A concrete run state with the single live cell `cellA`, its dynamic
body in the space, and fresh identity counters. -/
def baseState : SimState :=
  { bodyHeap := [(10, { btype := 0, posX := 40, posY := 50, angle := 0 })],
    cellHeap := [(0, cellA)],
    space := { bodies := [10], shapes := [{ sid := 20, bodyBid := 10 }],
               historicNCells := 1 },
    cells := [0], historicCells := [0], cellTimeseries := [], x := 0,
    stepCount := 0, rvsCount := 0, divDrawCount := 0, nextBid := 11,
    nextSid := 21, nextCid := 1, pickleWrites := 0,
    pickledTimeseries := none, pickledSpace := none, trace := [] }

/-- Concrete parameters: dt = 1/20, one main physics iteration, trench
limit 100, simulation length 10. -/
def pBase : Params :=
  { dtv := 1 / 20, physIters := 1, ylim := 100, simLength := 10 }

/-- `baseState` with the live cell replaced by the division-ready `cellB`. -/
def divState : SimState :=
  { baseState with cellHeap := [(0, cellB)] }

/-- `baseState` with one frame already recorded and recording active. -/
def tsState : SimState :=
  { baseState with cellTimeseries := [[cellA]], x := 2 }

/-- `baseState` with the live cell's body moved below the trench
(y = -5), so the bounds check fires on the only live cell. -/
def oobState : SimState :=
  { baseState with
    bodyHeap := [(10, { btype := 0, posX := 40, posY := 0 - 5, angle := 0 })] }

/-- `baseState` with a second live non-dividing cell (identity 1, body 11,
shape 21), both registered in the space. -/
def twoCellState : SimState :=
  { baseState with
    bodyHeap := [(10, { btype := 0, posX := 40, posY := 50, angle := 0 }),
                 (11, { btype := 0, posX := 40, posY := 60, angle := 0 })],
    cellHeap := [(0, cellA), (1, { cellA with bodyBid := 11, shapeSid := 21 })],
    space := { bodies := [10, 11],
               shapes := [{ sid := 20, bodyBid := 10 },
                          { sid := 21, bodyBid := 11 }],
               historicNCells := 2 },
    cells := [0, 1], nextBid := 12, nextSid := 22, nextCid := 2 }

/-- `baseState` extended with a static trench segment (body 5, shape 15)
ahead of the dynamic cell pair, keeping bodies and shapes index-aligned. -/
def mixState : SimState :=
  { baseState with
    bodyHeap := [(5, { btype := 2, posX := 35, posY := 0, angle := 0 }),
                 (10, { btype := 0, posX := 40, posY := 50, angle := 0 })],
    space := { bodies := [5, 10],
               shapes := [{ sid := 15, bodyBid := 5 },
                          { sid := 20, bodyBid := 10 }],
               historicNCells := 1 } }

/-! ### Preservation lemmas for the loops of the stepping algorithm -/

lemma settleSteps_cells (env : Env) :
    ∀ (k : ℕ) (s : SimState), (settleSteps env k s).cells = s.cells
  | 0, _ => rfl
  | k + 1, s => settleSteps_cells env k (spaceStep env (1 / 100) s)

lemma settleSteps_cellHeap (env : Env) :
    ∀ (k : ℕ) (s : SimState), (settleSteps env k s).cellHeap = s.cellHeap
  | 0, _ => rfl
  | k + 1, s => settleSteps_cellHeap env k (spaceStep env (1 / 100) s)

lemma settleSteps_space (env : Env) :
    ∀ (k : ℕ) (s : SimState), (settleSteps env k s).space = s.space
  | 0, _ => rfl
  | k + 1, s => settleSteps_space env k (spaceStep env (1 / 100) s)

lemma settleSteps_x (env : Env) :
    ∀ (k : ℕ) (s : SimState), (settleSteps env k s).x = s.x
  | 0, _ => rfl
  | k + 1, s => settleSteps_x env k (spaceStep env (1 / 100) s)

lemma settleSteps_ts (env : Env) :
    ∀ (k : ℕ) (s : SimState),
      (settleSteps env k s).cellTimeseries = s.cellTimeseries
  | 0, _ => rfl
  | k + 1, s => settleSteps_ts env k (spaceStep env (1 / 100) s)

lemma settleSteps_pW (env : Env) :
    ∀ (k : ℕ) (s : SimState), (settleSteps env k s).pickleWrites = s.pickleWrites
  | 0, _ => rfl
  | k + 1, s => settleSteps_pW env k (spaceStep env (1 / 100) s)

lemma settleSteps_pT (env : Env) :
    ∀ (k : ℕ) (s : SimState),
      (settleSteps env k s).pickledTimeseries = s.pickledTimeseries
  | 0, _ => rfl
  | k + 1, s => settleSteps_pT env k (spaceStep env (1 / 100) s)

lemma settleSteps_pS (env : Env) :
    ∀ (k : ℕ) (s : SimState), (settleSteps env k s).pickledSpace = s.pickledSpace
  | 0, _ => rfl
  | k + 1, s => settleSteps_pS env k (spaceStep env (1 / 100) s)

lemma settleSteps_historic (env : Env) :
    ∀ (k : ℕ) (s : SimState),
      (settleSteps env k s).historicCells = s.historicCells
  | 0, _ => rfl
  | k + 1, s => settleSteps_historic env k (spaceStep env (1 / 100) s)

lemma settleSteps_stepCount (env : Env) :
    ∀ (k : ℕ) (s : SimState), (settleSteps env k s).stepCount = s.stepCount + k
  | 0, _ => rfl
  | k + 1, s => by
    rw [settleSteps, settleSteps_stepCount env k]
    show s.stepCount + 1 + k = s.stepCount + (k + 1)
    omega

lemma settleSteps_trace (env : Env) :
    ∀ (k : ℕ) (s : SimState),
      (settleSteps env k s).trace =
        s.trace ++ List.replicate k (Ev.step (1 / 100))
  | 0, _ => by simp [settleSteps]
  | k + 1, s => by
    rw [settleSteps, settleSteps_trace env k]
    show s.trace ++ [Ev.step (1 / 100)] ++ _ = _
    rw [List.append_assoc, List.replicate_succ]
    rfl

lemma physItersLoop_cells (env : Env) (p : Params) :
    ∀ (k : ℕ) (s : SimState), (physItersLoop env p k s).cells = s.cells
  | 0, _ => rfl
  | k + 1, s => physItersLoop_cells env p k (spaceStep env p.dtv s)

lemma physItersLoop_cellHeap (env : Env) (p : Params) :
    ∀ (k : ℕ) (s : SimState), (physItersLoop env p k s).cellHeap = s.cellHeap
  | 0, _ => rfl
  | k + 1, s => physItersLoop_cellHeap env p k (spaceStep env p.dtv s)

lemma physItersLoop_x (env : Env) (p : Params) :
    ∀ (k : ℕ) (s : SimState), (physItersLoop env p k s).x = s.x
  | 0, _ => rfl
  | k + 1, s => physItersLoop_x env p k (spaceStep env p.dtv s)

lemma physItersLoop_ts (env : Env) (p : Params) :
    ∀ (k : ℕ) (s : SimState),
      (physItersLoop env p k s).cellTimeseries = s.cellTimeseries
  | 0, _ => rfl
  | k + 1, s => physItersLoop_ts env p k (spaceStep env p.dtv s)

lemma physItersLoop_pW (env : Env) (p : Params) :
    ∀ (k : ℕ) (s : SimState),
      (physItersLoop env p k s).pickleWrites = s.pickleWrites
  | 0, _ => rfl
  | k + 1, s => physItersLoop_pW env p k (spaceStep env p.dtv s)

lemma physItersLoop_pT (env : Env) (p : Params) :
    ∀ (k : ℕ) (s : SimState),
      (physItersLoop env p k s).pickledTimeseries = s.pickledTimeseries
  | 0, _ => rfl
  | k + 1, s => physItersLoop_pT env p k (spaceStep env p.dtv s)

lemma physItersLoop_pS (env : Env) (p : Params) :
    ∀ (k : ℕ) (s : SimState),
      (physItersLoop env p k s).pickledSpace = s.pickledSpace
  | 0, _ => rfl
  | k + 1, s => physItersLoop_pS env p k (spaceStep env p.dtv s)

lemma physItersLoop_historic (env : Env) (p : Params) :
    ∀ (k : ℕ) (s : SimState),
      (physItersLoop env p k s).historicCells = s.historicCells
  | 0, _ => rfl
  | k + 1, s => physItersLoop_historic env p k (spaceStep env p.dtv s)

lemma applyShapeRemovals_cells (env : Env) (p : Params) :
    ∀ (L : List PShape) (s : SimState),
      (applyShapeRemovals env p L s).cells = s.cells
  | [], _ => rfl
  | sh :: rest, s =>
    applyShapeRemovals_cells env p rest
      (spaceStep env p.dtv (spaceRemovePair s sh.bodyBid sh.sid))

lemma applyShapeRemovals_cellHeap (env : Env) (p : Params) :
    ∀ (L : List PShape) (s : SimState),
      (applyShapeRemovals env p L s).cellHeap = s.cellHeap
  | [], _ => rfl
  | sh :: rest, s =>
    applyShapeRemovals_cellHeap env p rest
      (spaceStep env p.dtv (spaceRemovePair s sh.bodyBid sh.sid))

lemma applyShapeRemovals_rvsCount (env : Env) (p : Params) :
    ∀ (L : List PShape) (s : SimState),
      (applyShapeRemovals env p L s).rvsCount = s.rvsCount
  | [], _ => rfl
  | sh :: rest, s =>
    applyShapeRemovals_rvsCount env p rest
      (spaceStep env p.dtv (spaceRemovePair s sh.bodyBid sh.sid))

lemma applyShapeRemovals_x (env : Env) (p : Params) :
    ∀ (L : List PShape) (s : SimState), (applyShapeRemovals env p L s).x = s.x
  | [], _ => rfl
  | sh :: rest, s =>
    applyShapeRemovals_x env p rest
      (spaceStep env p.dtv (spaceRemovePair s sh.bodyBid sh.sid))

lemma applyShapeRemovals_ts (env : Env) (p : Params) :
    ∀ (L : List PShape) (s : SimState),
      (applyShapeRemovals env p L s).cellTimeseries = s.cellTimeseries
  | [], _ => rfl
  | sh :: rest, s =>
    applyShapeRemovals_ts env p rest
      (spaceStep env p.dtv (spaceRemovePair s sh.bodyBid sh.sid))

lemma applyShapeRemovals_pW (env : Env) (p : Params) :
    ∀ (L : List PShape) (s : SimState),
      (applyShapeRemovals env p L s).pickleWrites = s.pickleWrites
  | [], _ => rfl
  | sh :: rest, s =>
    applyShapeRemovals_pW env p rest
      (spaceStep env p.dtv (spaceRemovePair s sh.bodyBid sh.sid))

lemma applyShapeRemovals_pT (env : Env) (p : Params) :
    ∀ (L : List PShape) (s : SimState),
      (applyShapeRemovals env p L s).pickledTimeseries = s.pickledTimeseries
  | [], _ => rfl
  | sh :: rest, s =>
    applyShapeRemovals_pT env p rest
      (spaceStep env p.dtv (spaceRemovePair s sh.bodyBid sh.sid))

lemma applyShapeRemovals_pS (env : Env) (p : Params) :
    ∀ (L : List PShape) (s : SimState),
      (applyShapeRemovals env p L s).pickledSpace = s.pickledSpace
  | [], _ => rfl
  | sh :: rest, s =>
    applyShapeRemovals_pS env p rest
      (spaceStep env p.dtv (spaceRemovePair s sh.bodyBid sh.sid))

lemma applyShapeRemovals_historic (env : Env) (p : Params) :
    ∀ (L : List PShape) (s : SimState),
      (applyShapeRemovals env p L s).historicCells = s.historicCells
  | [], _ => rfl
  | sh :: rest, s =>
    applyShapeRemovals_historic env p rest
      (spaceStep env p.dtv (spaceRemovePair s sh.bodyBid sh.sid))

lemma applyCellRemovals_cellHeap (env : Env) (p : Params) :
    ∀ (L : List ℕ) (s : SimState),
      (applyCellRemovals env p L s).cellHeap = s.cellHeap
  | [], _ => rfl
  | cid :: rest, s => by
    rw [applyCellRemovals]
    split
    · exact applyCellRemovals_cellHeap env p rest _
    · exact applyCellRemovals_cellHeap env p rest s

lemma applyCellRemovals_space (env : Env) (p : Params) :
    ∀ (L : List ℕ) (s : SimState),
      (applyCellRemovals env p L s).space = s.space
  | [], _ => rfl
  | cid :: rest, s => by
    rw [applyCellRemovals]
    split
    · exact applyCellRemovals_space env p rest _
    · exact applyCellRemovals_space env p rest s

lemma applyCellRemovals_x (env : Env) (p : Params) :
    ∀ (L : List ℕ) (s : SimState), (applyCellRemovals env p L s).x = s.x
  | [], _ => rfl
  | cid :: rest, s => by
    rw [applyCellRemovals]
    split
    · exact applyCellRemovals_x env p rest _
    · exact applyCellRemovals_x env p rest s

lemma applyCellRemovals_ts (env : Env) (p : Params) :
    ∀ (L : List ℕ) (s : SimState),
      (applyCellRemovals env p L s).cellTimeseries = s.cellTimeseries
  | [], _ => rfl
  | cid :: rest, s => by
    rw [applyCellRemovals]
    split
    · exact applyCellRemovals_ts env p rest _
    · exact applyCellRemovals_ts env p rest s

lemma applyCellRemovals_pW (env : Env) (p : Params) :
    ∀ (L : List ℕ) (s : SimState),
      (applyCellRemovals env p L s).pickleWrites = s.pickleWrites
  | [], _ => rfl
  | cid :: rest, s => by
    rw [applyCellRemovals]
    split
    · exact applyCellRemovals_pW env p rest _
    · exact applyCellRemovals_pW env p rest s

lemma applyCellRemovals_pT (env : Env) (p : Params) :
    ∀ (L : List ℕ) (s : SimState),
      (applyCellRemovals env p L s).pickledTimeseries = s.pickledTimeseries
  | [], _ => rfl
  | cid :: rest, s => by
    rw [applyCellRemovals]
    split
    · exact applyCellRemovals_pT env p rest _
    · exact applyCellRemovals_pT env p rest s

lemma applyCellRemovals_pS (env : Env) (p : Params) :
    ∀ (L : List ℕ) (s : SimState),
      (applyCellRemovals env p L s).pickledSpace = s.pickledSpace
  | [], _ => rfl
  | cid :: rest, s => by
    rw [applyCellRemovals]
    split
    · exact applyCellRemovals_pS env p rest _
    · exact applyCellRemovals_pS env p rest s

lemma applyCellRemovals_historic (env : Env) (p : Params) :
    ∀ (L : List ℕ) (s : SimState),
      (applyCellRemovals env p L s).historicCells = s.historicCells
  | [], _ => rfl
  | cid :: rest, s => by
    rw [applyCellRemovals]
    split
    · exact applyCellRemovals_historic env p rest _
    · exact applyCellRemovals_historic env p rest s

lemma applyRemoveBodies_cells :
    ∀ (L : List ℕ) (s : SimState), (applyRemoveBodies L s).cells = s.cells
  | [], _ => rfl
  | b :: rest, s => applyRemoveBodies_cells rest (spaceRemoveBody s b)

lemma applyRemoveBodies_cellHeap :
    ∀ (L : List ℕ) (s : SimState), (applyRemoveBodies L s).cellHeap = s.cellHeap
  | [], _ => rfl
  | b :: rest, s => applyRemoveBodies_cellHeap rest (spaceRemoveBody s b)

lemma applyRemoveBodies_bodyHeap :
    ∀ (L : List ℕ) (s : SimState), (applyRemoveBodies L s).bodyHeap = s.bodyHeap
  | [], _ => rfl
  | b :: rest, s => applyRemoveBodies_bodyHeap rest (spaceRemoveBody s b)

lemma applyRemoveBodies_x :
    ∀ (L : List ℕ) (s : SimState), (applyRemoveBodies L s).x = s.x
  | [], _ => rfl
  | b :: rest, s => applyRemoveBodies_x rest (spaceRemoveBody s b)

lemma applyRemoveBodies_ts :
    ∀ (L : List ℕ) (s : SimState),
      (applyRemoveBodies L s).cellTimeseries = s.cellTimeseries
  | [], _ => rfl
  | b :: rest, s => applyRemoveBodies_ts rest (spaceRemoveBody s b)

lemma applyRemoveBodies_pW :
    ∀ (L : List ℕ) (s : SimState),
      (applyRemoveBodies L s).pickleWrites = s.pickleWrites
  | [], _ => rfl
  | b :: rest, s => applyRemoveBodies_pW rest (spaceRemoveBody s b)

lemma applyRemoveBodies_pT :
    ∀ (L : List ℕ) (s : SimState),
      (applyRemoveBodies L s).pickledTimeseries = s.pickledTimeseries
  | [], _ => rfl
  | b :: rest, s => applyRemoveBodies_pT rest (spaceRemoveBody s b)

lemma applyRemoveBodies_pS :
    ∀ (L : List ℕ) (s : SimState),
      (applyRemoveBodies L s).pickledSpace = s.pickledSpace
  | [], _ => rfl
  | b :: rest, s => applyRemoveBodies_pS rest (spaceRemoveBody s b)

lemma applyRemoveBodies_historic :
    ∀ (L : List ℕ) (s : SimState),
      (applyRemoveBodies L s).historicCells = s.historicCells
  | [], _ => rfl
  | b :: rest, s => applyRemoveBodies_historic rest (spaceRemoveBody s b)

lemma applyRemoveBodies_shapes :
    ∀ (L : List ℕ) (s : SimState),
      (applyRemoveBodies L s).space.shapes = s.space.shapes
  | [], _ => rfl
  | b :: rest, s => applyRemoveBodies_shapes rest (spaceRemoveBody s b)

lemma applyRemoveBodies_bodies :
    ∀ (L : List ℕ) (s : SimState),
      (applyRemoveBodies L s).space.bodies =
        s.space.bodies.filter (fun b => decide (b ∉ L))
  | [], s => by simp [applyRemoveBodies]
  | b :: rest, s => by
    rw [applyRemoveBodies, applyRemoveBodies_bodies rest]
    show (s.space.bodies.filter (fun c => c ≠ b)).filter _ = _
    rw [List.filter_filter]
    refine List.filter_congr ?_
    intro a _
    by_cases hab : a = b <;> simp [hab, List.mem_cons]

lemma applyRemoveShapes_cells :
    ∀ (L : List PShape) (s : SimState), (applyRemoveShapes L s).cells = s.cells
  | [], _ => rfl
  | sh :: rest, s => applyRemoveShapes_cells rest (spaceRemoveShape s sh.sid)

lemma applyRemoveShapes_cellHeap :
    ∀ (L : List PShape) (s : SimState),
      (applyRemoveShapes L s).cellHeap = s.cellHeap
  | [], _ => rfl
  | sh :: rest, s => applyRemoveShapes_cellHeap rest (spaceRemoveShape s sh.sid)

lemma applyRemoveShapes_bodyHeap :
    ∀ (L : List PShape) (s : SimState),
      (applyRemoveShapes L s).bodyHeap = s.bodyHeap
  | [], _ => rfl
  | sh :: rest, s => applyRemoveShapes_bodyHeap rest (spaceRemoveShape s sh.sid)

lemma applyRemoveShapes_x :
    ∀ (L : List PShape) (s : SimState), (applyRemoveShapes L s).x = s.x
  | [], _ => rfl
  | sh :: rest, s => applyRemoveShapes_x rest (spaceRemoveShape s sh.sid)

lemma applyRemoveShapes_ts :
    ∀ (L : List PShape) (s : SimState),
      (applyRemoveShapes L s).cellTimeseries = s.cellTimeseries
  | [], _ => rfl
  | sh :: rest, s => applyRemoveShapes_ts rest (spaceRemoveShape s sh.sid)

lemma applyRemoveShapes_pW :
    ∀ (L : List PShape) (s : SimState),
      (applyRemoveShapes L s).pickleWrites = s.pickleWrites
  | [], _ => rfl
  | sh :: rest, s => applyRemoveShapes_pW rest (spaceRemoveShape s sh.sid)

lemma applyRemoveShapes_pT :
    ∀ (L : List PShape) (s : SimState),
      (applyRemoveShapes L s).pickledTimeseries = s.pickledTimeseries
  | [], _ => rfl
  | sh :: rest, s => applyRemoveShapes_pT rest (spaceRemoveShape s sh.sid)

lemma applyRemoveShapes_pS :
    ∀ (L : List PShape) (s : SimState),
      (applyRemoveShapes L s).pickledSpace = s.pickledSpace
  | [], _ => rfl
  | sh :: rest, s => applyRemoveShapes_pS rest (spaceRemoveShape s sh.sid)

lemma applyRemoveShapes_historic :
    ∀ (L : List PShape) (s : SimState),
      (applyRemoveShapes L s).historicCells = s.historicCells
  | [], _ => rfl
  | sh :: rest, s => applyRemoveShapes_historic rest (spaceRemoveShape s sh.sid)

lemma applyRemoveShapes_bodies :
    ∀ (L : List PShape) (s : SimState),
      (applyRemoveShapes L s).space.bodies = s.space.bodies
  | [], _ => rfl
  | sh :: rest, s => applyRemoveShapes_bodies rest (spaceRemoveShape s sh.sid)

lemma applyRemoveShapes_shapes :
    ∀ (L : List PShape) (s : SimState),
      (applyRemoveShapes L s).space.shapes =
        s.space.shapes.filter (fun sh => decide (sh.sid ∉ L.map PShape.sid))
  | [], s => by simp [applyRemoveShapes]
  | c :: rest, s => by
    rw [applyRemoveShapes, applyRemoveShapes_shapes rest]
    show (s.space.shapes.filter (fun sh => sh.sid ≠ c.sid)).filter _ = _
    rw [List.filter_filter]
    refine List.filter_congr ?_
    intro a _
    by_cases hac : a.sid = c.sid <;> simp [hac, List.mem_cons]

lemma applyShapeRemovals_trace (env : Env) (p : Params) :
    ∀ (L : List PShape) (s : SimState),
      (applyShapeRemovals env p L s).trace =
        s.trace ++ L.flatMap (fun sh =>
          [Ev.removeBody sh.bodyBid, Ev.removeShape sh.sid, Ev.step p.dtv])
  | [], s => by simp [applyShapeRemovals]
  | sh :: rest, s => by
    rw [applyShapeRemovals, applyShapeRemovals_trace env p rest]
    show s.trace ++ [Ev.removeBody sh.bodyBid] ++ [Ev.removeShape sh.sid] ++
      [Ev.step p.dtv] ++ _ = _
    simp

lemma applyShapeRemovals_stepCount (env : Env) (p : Params) :
    ∀ (L : List PShape) (s : SimState),
      (applyShapeRemovals env p L s).stepCount = s.stepCount + L.length
  | [], s => rfl
  | sh :: rest, s => by
    rw [applyShapeRemovals, applyShapeRemovals_stepCount env p rest]
    show s.stepCount + 1 + rest.length = s.stepCount + (rest.length + 1)
    omega

lemma applyShapeRemovals_shapes (env : Env) (p : Params) :
    ∀ (L : List PShape) (s : SimState),
      (applyShapeRemovals env p L s).space.shapes =
        s.space.shapes.filter (fun sh => decide (sh.sid ∉ L.map PShape.sid))
  | [], s => by simp [applyShapeRemovals]
  | c :: rest, s => by
    rw [applyShapeRemovals, applyShapeRemovals_shapes env p rest]
    show (s.space.shapes.filter (fun sh => sh.sid ≠ c.sid)).filter _ = _
    rw [List.filter_filter]
    refine List.filter_congr ?_
    intro a _
    by_cases hac : a.sid = c.sid <;> simp [hac, List.mem_cons]

lemma applyShapeRemovals_bodies (env : Env) (p : Params) :
    ∀ (L : List PShape) (s : SimState),
      (applyShapeRemovals env p L s).space.bodies =
        s.space.bodies.filter (fun b => decide (b ∉ L.map PShape.bodyBid))
  | [], s => by simp [applyShapeRemovals]
  | c :: rest, s => by
    rw [applyShapeRemovals, applyShapeRemovals_bodies env p rest]
    show (s.space.bodies.filter (fun b => b ≠ c.bodyBid)).filter _ = _
    rw [List.filter_filter]
    refine List.filter_congr ?_
    intro a _
    by_cases hac : a = c.bodyBid <;> simp [hac, List.mem_cons]

lemma removeFirstCell_eq_filter :
    ∀ (l : List ℕ), l.Nodup → ∀ (c : ℕ),
      removeFirstCell l c = l.filter (fun a => decide (a ≠ c))
  | [], _, _ => rfl
  | a :: as, h, c => by
    have has : as.Nodup := (List.nodup_cons.mp h).2
    by_cases hac : a = c
    · subst hac
      rw [removeFirstCell, if_pos rfl]
      have h2 : ∀ b ∈ as, b ≠ a := fun b hb hba =>
        (List.nodup_cons.mp h).1 (hba ▸ hb)
      have h3 : (a :: as).filter (fun b => decide (b ≠ a)) = as := by
        rw [List.filter_cons]
        split
        · next hcond => simp at hcond
        · exact List.filter_eq_self.mpr (fun b hb => by simpa using h2 b hb)
      exact h3.symm
    · rw [removeFirstCell, if_neg hac, removeFirstCell_eq_filter as has c]
      simp [List.filter_cons, hac]

lemma applyCellRemovals_cells (env : Env) (p : Params) :
    ∀ (L : List ℕ) (s : SimState), s.cells.Nodup →
      (applyCellRemovals env p L s).cells =
        s.cells.filter (fun a => decide (a ∉ L))
  | [], s, _ => by simp [applyCellRemovals]
  | c :: rest, s, h => by
    by_cases hc : c ∈ s.cells
    · rw [applyCellRemovals, if_pos hc]
      have hcells : (spaceStep env p.dtv
          { s with cells := removeFirstCell s.cells c }).cells =
          s.cells.filter (fun a => decide (a ≠ c)) :=
        removeFirstCell_eq_filter s.cells h c
      have hnd : (spaceStep env p.dtv
          { s with cells := removeFirstCell s.cells c }).cells.Nodup := by
        rw [hcells]; exact h.filter _
      rw [applyCellRemovals_cells env p rest _ hnd, hcells,
        List.filter_filter]
      refine List.filter_congr ?_
      intro a _
      by_cases hac : a = c <;> simp [hac, List.mem_cons]
    · rw [applyCellRemovals, if_neg hc,
        applyCellRemovals_cells env p rest s h]
      refine List.filter_congr ?_
      intro a ha
      have hac : a ≠ c := fun hh => hc (hh ▸ ha)
      simp [List.mem_cons, hac]

/-! ### Per-operation equations used to assemble the stepping lemmas -/

lemma findCell_updateCellHeap_ne :
    ∀ (heap : List (ℕ × Cell)) (cid : ℕ) (f : Cell → Cell) (cid' : ℕ),
      cid' ≠ cid →
      findCell (updateCellHeap heap cid f) cid' = findCell heap cid'
  | [], _, _, _, _ => rfl
  | kv :: rest, cid, f, cid', h => by
    by_cases hk : kv.1 = cid
    · have hkc : ¬kv.1 = cid' := by
        rw [hk]; exact fun e => h e.symm
      rw [updateCellHeap, List.map_cons, if_pos hk, findCell, findCell,
        if_neg hkc, if_neg hkc]
      exact findCell_updateCellHeap_ne rest cid f cid' h
    · rw [updateCellHeap, List.map_cons, if_neg hk, findCell, findCell]
      by_cases hk' : kv.1 = cid'
      · rw [if_pos hk', if_pos hk']
      · rw [if_neg hk', if_neg hk']
        exact findCell_updateCellHeap_ne rest cid f cid' h

lemma processCell_book (env : Env) (s : SimState) (cid : ℕ) :
    (processCell env s cid).x = s.x ∧
    (processCell env s cid).cellTimeseries = s.cellTimeseries ∧
    (processCell env s cid).pickleWrites = s.pickleWrites ∧
    (processCell env s cid).pickledTimeseries = s.pickledTimeseries ∧
    (processCell env s cid).pickledSpace = s.pickledSpace ∧
    (processCell env s cid).historicCells = s.historicCells := by
  unfold processCell
  refine ⟨?_, ?_, ?_, ?_, ?_, ?_⟩ <;>
    simp only [settleSteps_x, settleSteps_ts, settleSteps_pW, settleSteps_pT,
      settleSteps_pS, settleSteps_historic] <;>
    split <;> rfl

lemma processCell_cells (env : Env) (s : SimState) (cid : ℕ) :
    (processCell env s cid).cells = s.cells ∨
    ∃ d, (processCell env s cid).cells = s.cells ++ [d] := by
  simp only [processCell]
  split
  · right
    refine ⟨(newCellFromDetails
      (create_pm_cell_div env (update_length s cid) cid).2
      (create_pm_cell_div env (update_length s cid) cid).1).1, ?_⟩
    rw [settleSteps_cells]
    rfl
  · left
    rw [settleSteps_cells]
    rfl

lemma processCell_len (env : Env) (s : SimState) (cid : ℕ) :
    s.cells.length ≤ (processCell env s cid).cells.length := by
  rcases processCell_cells env s cid with h | ⟨d, h⟩
  · rw [h]
  · rw [h]; simp

lemma update_pm_cells_go_x (env : Env) :
    ∀ (fuel i : ℕ) (s : SimState), (update_pm_cells_go env fuel i s).x = s.x
  | 0, _, _ => rfl
  | fuel + 1, i, s => by
    rw [update_pm_cells_go]
    cases hget : s.cells.get? i with
    | some cid =>
      rw [update_pm_cells_go_x env fuel]
      exact (processCell_book env s cid).1
    | none => rfl

lemma update_pm_cells_go_ts (env : Env) :
    ∀ (fuel i : ℕ) (s : SimState),
      (update_pm_cells_go env fuel i s).cellTimeseries = s.cellTimeseries
  | 0, _, _ => rfl
  | fuel + 1, i, s => by
    rw [update_pm_cells_go]
    cases hget : s.cells.get? i with
    | some cid =>
      rw [update_pm_cells_go_ts env fuel]
      exact (processCell_book env s cid).2.1
    | none => rfl

lemma update_pm_cells_go_pW (env : Env) :
    ∀ (fuel i : ℕ) (s : SimState),
      (update_pm_cells_go env fuel i s).pickleWrites = s.pickleWrites
  | 0, _, _ => rfl
  | fuel + 1, i, s => by
    rw [update_pm_cells_go]
    cases hget : s.cells.get? i with
    | some cid =>
      rw [update_pm_cells_go_pW env fuel]
      exact (processCell_book env s cid).2.2.1
    | none => rfl

lemma update_pm_cells_go_pT (env : Env) :
    ∀ (fuel i : ℕ) (s : SimState),
      (update_pm_cells_go env fuel i s).pickledTimeseries = s.pickledTimeseries
  | 0, _, _ => rfl
  | fuel + 1, i, s => by
    rw [update_pm_cells_go]
    cases hget : s.cells.get? i with
    | some cid =>
      rw [update_pm_cells_go_pT env fuel]
      exact (processCell_book env s cid).2.2.2.1
    | none => rfl

lemma update_pm_cells_go_pS (env : Env) :
    ∀ (fuel i : ℕ) (s : SimState),
      (update_pm_cells_go env fuel i s).pickledSpace = s.pickledSpace
  | 0, _, _ => rfl
  | fuel + 1, i, s => by
    rw [update_pm_cells_go]
    cases hget : s.cells.get? i with
    | some cid =>
      rw [update_pm_cells_go_pS env fuel]
      exact (processCell_book env s cid).2.2.2.2.1
    | none => rfl

lemma update_pm_cells_go_historic (env : Env) :
    ∀ (fuel i : ℕ) (s : SimState),
      (update_pm_cells_go env fuel i s).historicCells = s.historicCells
  | 0, _, _ => rfl
  | fuel + 1, i, s => by
    rw [update_pm_cells_go]
    cases hget : s.cells.get? i with
    | some cid =>
      rw [update_pm_cells_go_historic env fuel]
      exact (processCell_book env s cid).2.2.2.2.2
    | none => rfl

lemma update_pm_cells_go_len (env : Env) :
    ∀ (fuel i : ℕ) (s : SimState),
      s.cells.length ≤ (update_pm_cells_go env fuel i s).cells.length
  | 0, _, _ => le_refl _
  | fuel + 1, i, s => by
    rw [update_pm_cells_go]
    cases hget : s.cells.get? i with
    | some cid =>
      exact le_trans (processCell_len env s cid)
        (update_pm_cells_go_len env fuel (i + 1) (processCell env s cid))
    | none => exact le_refl _

lemma ucp_go_cells :
    ∀ (l : List ℕ) (s : SimState),
      (l.foldl (fun st cid => update_position st cid) s).cells = s.cells
  | [], _ => rfl
  | a :: l, s => by
    rw [List.foldl_cons]
    exact ucp_go_cells l (update_position s a)

lemma ucp_go_x :
    ∀ (l : List ℕ) (s : SimState),
      (l.foldl (fun st cid => update_position st cid) s).x = s.x
  | [], _ => rfl
  | a :: l, s => by
    rw [List.foldl_cons]
    exact ucp_go_x l (update_position s a)

lemma ucp_go_ts :
    ∀ (l : List ℕ) (s : SimState),
      (l.foldl (fun st cid => update_position st cid) s).cellTimeseries =
        s.cellTimeseries
  | [], _ => rfl
  | a :: l, s => by
    rw [List.foldl_cons]
    exact ucp_go_ts l (update_position s a)

lemma ucp_go_pW :
    ∀ (l : List ℕ) (s : SimState),
      (l.foldl (fun st cid => update_position st cid) s).pickleWrites =
        s.pickleWrites
  | [], _ => rfl
  | a :: l, s => by
    rw [List.foldl_cons]
    exact ucp_go_pW l (update_position s a)

lemma ucp_go_pT :
    ∀ (l : List ℕ) (s : SimState),
      (l.foldl (fun st cid => update_position st cid) s).pickledTimeseries =
        s.pickledTimeseries
  | [], _ => rfl
  | a :: l, s => by
    rw [List.foldl_cons]
    exact ucp_go_pT l (update_position s a)

lemma ucp_go_pS :
    ∀ (l : List ℕ) (s : SimState),
      (l.foldl (fun st cid => update_position st cid) s).pickledSpace =
        s.pickledSpace
  | [], _ => rfl
  | a :: l, s => by
    rw [List.foldl_cons]
    exact ucp_go_pS l (update_position s a)

lemma ucp_go_historic :
    ∀ (l : List ℕ) (s : SimState),
      (l.foldl (fun st cid => update_position st cid) s).historicCells =
        s.historicCells
  | [], _ => rfl
  | a :: l, s => by
    rw [List.foldl_cons]
    exact ucp_go_historic l (update_position s a)

lemma wipe_space_cells (s : SimState) : (wipe_space s).cells = s.cells := by
  unfold wipe_space
  rw [applyRemoveShapes_cells, applyRemoveBodies_cells]

lemma wipe_space_cellHeap (s : SimState) :
    (wipe_space s).cellHeap = s.cellHeap := by
  unfold wipe_space
  rw [applyRemoveShapes_cellHeap, applyRemoveBodies_cellHeap]

lemma wipe_space_x (s : SimState) : (wipe_space s).x = s.x := by
  unfold wipe_space
  rw [applyRemoveShapes_x, applyRemoveBodies_x]

lemma wipe_space_ts (s : SimState) :
    (wipe_space s).cellTimeseries = s.cellTimeseries := by
  unfold wipe_space
  rw [applyRemoveShapes_ts, applyRemoveBodies_ts]

lemma wipe_space_pW (s : SimState) :
    (wipe_space s).pickleWrites = s.pickleWrites := by
  unfold wipe_space
  rw [applyRemoveShapes_pW, applyRemoveBodies_pW]

lemma wipe_space_pT (s : SimState) :
    (wipe_space s).pickledTimeseries = s.pickledTimeseries := by
  unfold wipe_space
  rw [applyRemoveShapes_pT, applyRemoveBodies_pT]

lemma wipe_space_pS (s : SimState) :
    (wipe_space s).pickledSpace = s.pickledSpace := by
  unfold wipe_space
  rw [applyRemoveShapes_pS, applyRemoveBodies_pS]

lemma wipe_space_historic (s : SimState) :
    (wipe_space s).historicCells = s.historicCells := by
  unfold wipe_space
  rw [applyRemoveShapes_historic, applyRemoveBodies_historic]

lemma removeOOBShapesPass_cells (env : Env) (p : Params) (s : SimState) :
    (removeOOBShapesPass env p s).cells = s.cells :=
  applyShapeRemovals_cells env p _ s

lemma removeOOBShapesPass_cellHeap (env : Env) (p : Params) (s : SimState) :
    (removeOOBShapesPass env p s).cellHeap = s.cellHeap :=
  applyShapeRemovals_cellHeap env p _ s

lemma removeOOBShapesPass_x (env : Env) (p : Params) (s : SimState) :
    (removeOOBShapesPass env p s).x = s.x :=
  applyShapeRemovals_x env p _ s

lemma removeOOBShapesPass_ts (env : Env) (p : Params) (s : SimState) :
    (removeOOBShapesPass env p s).cellTimeseries = s.cellTimeseries :=
  applyShapeRemovals_ts env p _ s

lemma removeOOBShapesPass_pW (env : Env) (p : Params) (s : SimState) :
    (removeOOBShapesPass env p s).pickleWrites = s.pickleWrites :=
  applyShapeRemovals_pW env p _ s

lemma removeOOBShapesPass_pT (env : Env) (p : Params) (s : SimState) :
    (removeOOBShapesPass env p s).pickledTimeseries = s.pickledTimeseries :=
  applyShapeRemovals_pT env p _ s

lemma removeOOBShapesPass_pS (env : Env) (p : Params) (s : SimState) :
    (removeOOBShapesPass env p s).pickledSpace = s.pickledSpace :=
  applyShapeRemovals_pS env p _ s

lemma removeOOBShapesPass_historic (env : Env) (p : Params) (s : SimState) :
    (removeOOBShapesPass env p s).historicCells = s.historicCells :=
  applyShapeRemovals_historic env p _ s

lemma removeCellsPass_cellHeap (env : Env) (p : Params) (s : SimState) :
    (removeCellsPass env p s).cellHeap = s.cellHeap := by
  unfold removeCellsPass
  rw [applyCellRemovals_cellHeap]

lemma removeCellsPass_space (env : Env) (p : Params) (s : SimState) :
    (removeCellsPass env p s).space = s.space := by
  unfold removeCellsPass
  rw [applyCellRemovals_space]

lemma removeCellsPass_x (env : Env) (p : Params) (s : SimState) :
    (removeCellsPass env p s).x = s.x := by
  unfold removeCellsPass
  rw [applyCellRemovals_x]

lemma removeCellsPass_ts (env : Env) (p : Params) (s : SimState) :
    (removeCellsPass env p s).cellTimeseries = s.cellTimeseries := by
  unfold removeCellsPass
  rw [applyCellRemovals_ts]

lemma removeCellsPass_pW (env : Env) (p : Params) (s : SimState) :
    (removeCellsPass env p s).pickleWrites = s.pickleWrites := by
  unfold removeCellsPass
  rw [applyCellRemovals_pW]

lemma removeCellsPass_pT (env : Env) (p : Params) (s : SimState) :
    (removeCellsPass env p s).pickledTimeseries = s.pickledTimeseries := by
  unfold removeCellsPass
  rw [applyCellRemovals_pT]

lemma removeCellsPass_pS (env : Env) (p : Params) (s : SimState) :
    (removeCellsPass env p s).pickledSpace = s.pickledSpace := by
  unfold removeCellsPass
  rw [applyCellRemovals_pS]

lemma removeCellsPass_historic (env : Env) (p : Params) (s : SimState) :
    (removeCellsPass env p s).historicCells = s.historicCells := by
  unfold removeCellsPass
  rw [applyCellRemovals_historic]

lemma update_cell_positions_cells (s : SimState) :
    (update_cell_positions s).cells = s.cells :=
  ucp_go_cells s.cells s

lemma update_cell_positions_x (s : SimState) :
    (update_cell_positions s).x = s.x :=
  ucp_go_x s.cells s

lemma update_cell_positions_ts (s : SimState) :
    (update_cell_positions s).cellTimeseries = s.cellTimeseries :=
  ucp_go_ts s.cells s

lemma update_cell_positions_pW (s : SimState) :
    (update_cell_positions s).pickleWrites = s.pickleWrites :=
  ucp_go_pW s.cells s

lemma update_cell_positions_pT (s : SimState) :
    (update_cell_positions s).pickledTimeseries = s.pickledTimeseries :=
  ucp_go_pT s.cells s

lemma update_cell_positions_pS (s : SimState) :
    (update_cell_positions s).pickledSpace = s.pickledSpace :=
  ucp_go_pS s.cells s

lemma update_cell_positions_historic (s : SimState) :
    (update_cell_positions s).historicCells = s.historicCells :=
  ucp_go_historic s.cells s

lemma recordFrame_x (s : SimState) : (recordFrame s).x = s.x := by
  unfold recordFrame
  split <;> rfl

lemma recordFrame_cells (s : SimState) : (recordFrame s).cells = s.cells := by
  unfold recordFrame
  split <;> rfl

lemma recordFrame_pW (s : SimState) :
    (recordFrame s).pickleWrites = s.pickleWrites := by
  unfold recordFrame
  split <;> rfl

lemma recordFrame_pT (s : SimState) :
    (recordFrame s).pickledTimeseries = s.pickledTimeseries := by
  unfold recordFrame
  split <;> rfl

lemma recordFrame_historic (s : SimState) :
    (recordFrame s).historicCells = s.historicCells := by
  unfold recordFrame
  split <;> rfl

lemma recordFrame_ts (s : SimState) :
    (recordFrame s).cellTimeseries =
      s.cellTimeseries ++ (if 1 < s.x then [liveSnapshot s] else []) := by
  unfold recordFrame
  split
  · rfl
  · simp

lemma finalizeFrame_cells (p : Params) (s : SimState) :
    (finalizeFrame p s).cells = s.cells := by
  unfold finalizeFrame
  split <;> rfl

lemma finalizeFrame_ts (p : Params) (s : SimState) :
    (finalizeFrame p s).cellTimeseries = s.cellTimeseries := by
  unfold finalizeFrame
  split <;> rfl

lemma finalizeFrame_historic (p : Params) (s : SimState) :
    (finalizeFrame p s).historicCells = s.historicCells := by
  unfold finalizeFrame
  split <;> rfl

lemma finalizeFrame_x (p : Params) (s : SimState) :
    (finalizeFrame p s).x =
      if (s.x : ℤ) = (p.simLength : ℤ) - 1 then s.x else s.x + 1 := by
  unfold finalizeFrame
  by_cases hc : (s.x : ℤ) = (p.simLength : ℤ) - 1
  · rw [if_pos hc, if_pos hc]
  · rw [if_neg hc, if_neg hc]

lemma finalizeFrame_pW (p : Params) (s : SimState) :
    (finalizeFrame p s).pickleWrites =
      s.pickleWrites +
        (if (s.x : ℤ) = (p.simLength : ℤ) - 1 then 1 else 0) := by
  unfold finalizeFrame
  by_cases hc : (s.x : ℤ) = (p.simLength : ℤ) - 1
  · rw [if_pos hc, if_pos hc]
  · rw [if_neg hc, if_neg hc]
    rfl

lemma finalizeFrame_pT (p : Params) (s : SimState)
    (h : (s.x : ℤ) = (p.simLength : ℤ) - 1) :
    (finalizeFrame p s).pickledTimeseries = some s.cellTimeseries := by
  unfold finalizeFrame
  rw [if_pos h]

lemma coreStep_x (env : Env) (fuel : ℕ) (p : Params) (s : SimState) :
    (coreStep env fuel p s).x = s.x := by
  unfold coreStep update_pm_cells
  rw [update_cell_positions_x, physItersLoop_x, update_pm_cells_go_x,
    wipe_space_x, removeCellsPass_x, removeOOBShapesPass_x]

lemma coreStep_ts (env : Env) (fuel : ℕ) (p : Params) (s : SimState) :
    (coreStep env fuel p s).cellTimeseries = s.cellTimeseries := by
  unfold coreStep update_pm_cells
  rw [update_cell_positions_ts, physItersLoop_ts, update_pm_cells_go_ts,
    wipe_space_ts, removeCellsPass_ts, removeOOBShapesPass_ts]

lemma coreStep_pW (env : Env) (fuel : ℕ) (p : Params) (s : SimState) :
    (coreStep env fuel p s).pickleWrites = s.pickleWrites := by
  unfold coreStep update_pm_cells
  rw [update_cell_positions_pW, physItersLoop_pW, update_pm_cells_go_pW,
    wipe_space_pW, removeCellsPass_pW, removeOOBShapesPass_pW]

lemma coreStep_pT (env : Env) (fuel : ℕ) (p : Params) (s : SimState) :
    (coreStep env fuel p s).pickledTimeseries = s.pickledTimeseries := by
  unfold coreStep update_pm_cells
  rw [update_cell_positions_pT, physItersLoop_pT, update_pm_cells_go_pT,
    wipe_space_pT, removeCellsPass_pT, removeOOBShapesPass_pT]

lemma coreStep_historic (env : Env) (fuel : ℕ) (p : Params) (s : SimState) :
    (coreStep env fuel p s).historicCells = s.historicCells := by
  unfold coreStep update_pm_cells
  rw [update_cell_positions_historic, physItersLoop_historic,
    update_pm_cells_go_historic, wipe_space_historic,
    removeCellsPass_historic, removeOOBShapesPass_historic]

lemma step_and_update_x (env : Env) (fuel : ℕ) (p : Params) (s : SimState) :
    (step_and_update env fuel p s).x =
      if (s.x : ℤ) = (p.simLength : ℤ) - 1 then s.x else s.x + 1 := by
  unfold step_and_update
  rw [finalizeFrame_x, recordFrame_x, coreStep_x]

lemma step_and_update_ts (env : Env) (fuel : ℕ) (p : Params) (s : SimState) :
    (step_and_update env fuel p s).cellTimeseries =
      s.cellTimeseries ++
        (if 1 < s.x then [liveSnapshot (coreStep env fuel p s)] else []) := by
  unfold step_and_update
  rw [finalizeFrame_ts, recordFrame_ts, coreStep_ts, coreStep_x]

lemma step_and_update_pW (env : Env) (fuel : ℕ) (p : Params) (s : SimState) :
    (step_and_update env fuel p s).pickleWrites =
      s.pickleWrites +
        (if (s.x : ℤ) = (p.simLength : ℤ) - 1 then 1 else 0) := by
  unfold step_and_update
  rw [finalizeFrame_pW, recordFrame_pW, recordFrame_x, coreStep_pW,
    coreStep_x]

lemma step_and_update_historic (env : Env) (fuel : ℕ) (p : Params)
    (s : SimState) :
    (step_and_update env fuel p s).historicCells = s.historicCells := by
  unfold step_and_update
  rw [finalizeFrame_historic, recordFrame_historic, coreStep_historic]

lemma step_and_update_cells (env : Env) (fuel : ℕ) (p : Params)
    (s : SimState) :
    (step_and_update env fuel p s).cells = (coreStep env fuel p s).cells := by
  unfold step_and_update
  rw [finalizeFrame_cells, recordFrame_cells]

lemma step_and_update_pT (env : Env) (fuel : ℕ) (p : Params) (s : SimState)
    (h : (s.x : ℤ) = (p.simLength : ℤ) - 1) :
    (step_and_update env fuel p s).pickledTimeseries =
      some ((step_and_update env fuel p s).cellTimeseries) := by
  unfold step_and_update
  have hx : ((recordFrame (coreStep env fuel p s)).x : ℤ) =
      (p.simLength : ℤ) - 1 := by
    rw [recordFrame_x, coreStep_x]; exact h
  rw [finalizeFrame_ts, finalizeFrame_pT _ _ hx]

/-! ### The collect phase when nothing is marked -/

lemma collect_go_nil (env : Env) (p : Params) (s : SimState) :
    ∀ (l : List ℕ),
      (∀ cid ∈ l, oobY p ((getBody s (getCell s cid).bodyBid).posY) = false) →
      (∀ cid ∈ l, ∀ rc' : ℕ,
        (decide ((env.rvs rc' : WithBot Frac) ≤ env.ppf (getCell s cid).lysisP)
          && decide (1 < s.cells.length)) = false) →
      ∀ rc : ℕ, (l.foldl (collectStep env p s) ([], rc)).1 = []
  | [], _, _, _ => rfl
  | a :: l, hb, hl, rc => by
    rw [List.foldl_cons]
    have h1 := hb a (List.mem_cons_self a l)
    have h2 := hl a (List.mem_cons_self a l) rc
    have hstep : collectStep env p s ([], rc) a = ([], rc + 1) := by
      unfold collectStep
      rw [if_neg (by rw [h1]; exact Bool.false_ne_true), if_neg
        (by rw [h2]; exact Bool.false_ne_true)]
    rw [hstep]
    exact collect_go_nil env p s l
      (fun cid hc => hb cid (List.mem_cons_of_mem a hc))
      (fun cid hc => hl cid (List.mem_cons_of_mem a hc)) (rc + 1)

lemma collectCellsToRemove_nil (env : Env) (p : Params) (s : SimState)
    (hb : ∀ cid ∈ s.cells,
      oobY p ((getBody s (getCell s cid).bodyBid).posY) = false)
    (hl : ∀ cid ∈ s.cells, ∀ rc' : ℕ,
      (decide ((env.rvs rc' : WithBot Frac) ≤ env.ppf (getCell s cid).lysisP)
        && decide (1 < s.cells.length)) = false) :
    (collectCellsToRemove env p s).1 = [] :=
  collect_go_nil env p s s.cells hb hl s.rvsCount

lemma removeCellsPass_cells_of_nil (env : Env) (p : Params) (s : SimState)
    (h : (collectCellsToRemove env p s).1 = []) :
    (removeCellsPass env p s).cells = s.cells := by
  unfold removeCellsPass
  simp only []
  rw [h]
  rfl

lemma removeOOBShapesPass_id (env : Env) (p : Params) (s : SimState)
    (h : ∀ sh ∈ s.space.shapes, oobY p (shapeBodyY s sh) = false) :
    removeOOBShapesPass env p s = s := by
  unfold removeOOBShapesPass
  have : s.space.shapes.filter (fun sh => oobY p (shapeBodyY s sh)) = [] :=
    List.filter_eq_nil_iff.mpr (fun sh hsh => by
      rw [h sh hsh]; exact Bool.false_ne_true)
  rw [this]
  rfl

/-! ### Claim theorems -/

/-- C2 (code bug): `step_and_update` never appends to `historic_cells` —
the append statements are commented out in the source — so after a run in
which a division happened the live list has two cells while the historic
record still holds only the seed cell, contradicting the claim that every
cell ever created (daughters included) is recorded.  The first conjunct
shows the record is invariant across every possible step; the last two
evaluate a concrete dividing step. -/
theorem c2_historic_record_not_appended :
    (∀ (env : Env) (fuel : ℕ) (p : Params) (s : SimState),
      (step_and_update env fuel p s).historicCells = s.historicCells) ∧
    (step_and_update envId 2 pBase divState).cells.length = 2 ∧
    (step_and_update envId 2 pBase divState).historicCells.length = 1 := by
  refine ⟨step_and_update_historic, ?_, ?_⟩
  · decide
  · decide

/-- C9 (confirmed): a frame recorded into the time series is a deep copy
(plain attribute values), so any number of further simulation steps — each
of which grows, possibly divides, re-registers, moves and may remove live
cells — leaves every previously recorded snapshot unchanged. -/
theorem c9_snapshots_immutable_after_recording (env : Env) (fuel : ℕ)
    (p : Params) :
    ∀ (m : ℕ) (s : SimState) (i : ℕ), i < s.cellTimeseries.length →
      (iterateSteps env fuel p m s).cellTimeseries.get? i =
        s.cellTimeseries.get? i
  | 0, _, _, _ => rfl
  | m + 1, s, i, hi => by
    have hlen : i < (step_and_update env fuel p s).cellTimeseries.length := by
      rw [step_and_update_ts, List.length_append]
      omega
    rw [iterateSteps,
      c9_snapshots_immutable_after_recording env fuel p m
        (step_and_update env fuel p s) i hlen,
      step_and_update_ts, List.get?_append hi]

/-- Witness for C9 at a concrete input: one already-recorded frame of
`tsState` is unchanged by one further full simulation step. -/
theorem c9_witness :
    (iterateSteps envId 2 pBase 1 tsState).cellTimeseries.get? 0 =
      tsState.cellTimeseries.get? 0 :=
  c9_snapshots_immutable_after_recording envId 2 pBase 1 tsState 0 (by decide)

/-- C10 (corrected): the frame counter `x[0]` never exceeds
`sim_length - 1`; a call entered with `x[0] = sim_length - 1` pickles the
(current) time series, leaves the counter unchanged, and appends another
frame exactly when `x[0] > 1` — that is, when `sim_length ≥ 3`, not on
every re-entry as the claim stated. -/
theorem c10_frame_counter_capped (env : Env) (fuel : ℕ) (p : Params)
    (s : SimState) (hsim : 1 ≤ p.simLength) (hx : s.x ≤ p.simLength - 1) :
    (step_and_update env fuel p s).x ≤ p.simLength - 1 ∧
    (s.x = p.simLength - 1 →
      (step_and_update env fuel p s).x = s.x ∧
      (step_and_update env fuel p s).pickleWrites = s.pickleWrites + 1 ∧
      (step_and_update env fuel p s).pickledTimeseries =
        some ((step_and_update env fuel p s).cellTimeseries) ∧
      (step_and_update env fuel p s).cellTimeseries.length =
        s.cellTimeseries.length + (if 1 < s.x then 1 else 0)) := by
  constructor
  · rw [step_and_update_x]
    by_cases hc : (s.x : ℤ) = (p.simLength : ℤ) - 1
    · rw [if_pos hc]; exact hx
    · rw [if_neg hc]; omega
  · intro hfin
    have hc : (s.x : ℤ) = (p.simLength : ℤ) - 1 := by omega
    refine ⟨?_, ?_, ?_, ?_⟩
    · rw [step_and_update_x, if_pos hc]
    · rw [step_and_update_pW, if_pos hc]
    · exact step_and_update_pT env fuel p s hc
    · rw [step_and_update_ts, List.length_append]
      by_cases h1 : 1 < s.x
      · rw [if_pos h1, if_pos h1]; rfl
      · rw [if_neg h1, if_neg h1]; rfl

/-- Witness for C10 at a concrete input. -/
theorem c10_witness :
    (step_and_update envId 1 pBase baseState).x ≤ pBase.simLength - 1 :=
  (c10_frame_counter_capped envId 1 pBase baseState (by decide)
    (by decide)).1

/-- Counterexample for C10 as stated: in a headless run with
`sim_length = 2` the finalize branch is re-entered on every further call
(the pickle files are rewritten three times) yet no frame is ever appended,
because `x[0]` is frozen at 1 and recording requires `x[0] > 1`. -/
theorem c10_counterexample_simlength_two :
    (run_simulation envId 4 200 30 2 1 2 1 1 0 0 1 0).pickleWrites = 3 ∧
    (run_simulation envId 4 200 30 2 1 2 1 1 0 0 1 0).cellTimeseries.length
      = 0 := by
  constructor
  · decide
  · decide

/-- C1 (code bug): a headless run with `sim_length = 3` records 3 frames,
not `sim_length - 2 = 1`: the driver loop runs `sim_length + 2` iterations
while the counter freezes at `sim_length - 1`, so the final frame is
recorded three times. -/
theorem c1_recorded_length_not_simlength_minus_two :
    (run_simulation envId 4 200 30 2 1 3 1 1 0 0 1 0).cellTimeseries.length
      = 3 ∧ 3 ≠ 3 - 2 := by
  constructor
  · decide
  · decide

/-- C8 (confirmed): with `norm.ppf 0 = -∞`, lysis probability 0 on every
live cell, and every body in bounds, a step removes nothing — only
divisions can change the live list — so the live-cell count never
decreases from one frame to the next. -/
theorem c8_population_nondecreasing (env : Env) (fuel : ℕ) (p : Params)
    (s : SimState)
    (hppf : env.ppf 0 = ⊥)
    (hlys : ∀ cid ∈ s.cells, (getCell s cid).lysisP = 0)
    (hshapes : ∀ sh ∈ s.space.shapes, oobY p (shapeBodyY s sh) = false)
    (hcells : ∀ cid ∈ s.cells,
      oobY p ((getBody s (getCell s cid).bodyBid).posY) = false) :
    s.cells.length ≤ (step_and_update env fuel p s).cells.length := by
  have h1 : removeOOBShapesPass env p s = s :=
    removeOOBShapesPass_id env p s hshapes
  have hl : ∀ cid ∈ s.cells, ∀ rc' : ℕ,
      (decide ((env.rvs rc' : WithBot Frac) ≤ env.ppf (getCell s cid).lysisP)
        && decide (1 < s.cells.length)) = false := by
    intro cid hc rc'
    rw [hlys cid hc, hppf]
    have hno : ¬((env.rvs rc' : WithBot Frac) ≤ (⊥ : WithBot Frac)) :=
      WithBot.not_coe_le_bot _
    simp [hno]
  have h2 : (removeCellsPass env p s).cells = s.cells :=
    removeCellsPass_cells_of_nil env p s
      (collectCellsToRemove_nil env p s hcells hl)
  rw [step_and_update_cells]
  unfold coreStep update_pm_cells
  rw [update_cell_positions_cells, physItersLoop_cells, h1]
  calc s.cells.length
      = (wipe_space (removeCellsPass env p s)).cells.length := by
        rw [wipe_space_cells, h2]
    _ ≤ _ := update_pm_cells_go_len env fuel 0 _

/-- Witness for C8 at a concrete input. -/
theorem c8_witness :
    baseState.cells.length ≤
      (step_and_update envId 2 pBase baseState).cells.length :=
  c8_population_nondecreasing envId 2 pBase baseState rfl (by decide)
    (by decide) (by decide)

/-- C3 counterexample: the bounds branch of the cell removal pass has no
guard on the live-cell count, so with a single live cell that is out of
bounds the pass (and hence the whole step) empties the live list. -/
theorem c3_counterexample_bounds_removal_empties :
    oobState.cells.length = 1 ∧
    (removeCellsPass envId pBase oobState).cells = [] ∧
    (step_and_update envId 1 pBase oobState).cells = [] := by
  refine ⟨?_, ?_, ?_⟩
  · decide
  · decide
  · decide

/-- C3 (corrected): only the lysis branch is guarded by
`len(cells) > 1`, evaluated during the collect phase; consequently with
exactly one live in-bounds cell no removal happens at all, whatever the
sampled value and the lysis probability — but the bounds branch remains
unguarded (see the counterexample). -/
theorem c3_lysis_guard_single_cell (env : Env) (p : Params) (s : SimState)
    (cid : ℕ) (hc : s.cells = [cid])
    (hb : oobY p ((getBody s (getCell s cid).bodyBid).posY) = false) :
    (removeCellsPass env p s).cells = s.cells ∧
    1 ≤ (removeCellsPass env p s).cells.length := by
  have hnil : (collectCellsToRemove env p s).1 = [] := by
    apply collectCellsToRemove_nil
    · intro c hcm
      have : c = cid := by
        rw [hc] at hcm
        exact List.mem_singleton.mp hcm
      rw [this]
      exact hb
    · intro c hcm rc'
      rw [hc]
      simp
  have hcells := removeCellsPass_cells_of_nil env p s hnil
  refine ⟨hcells, ?_⟩
  rw [hcells, hc]
  simp

/-- Witness for C3 at a concrete input where the lysis trial fires
(`rvs = -1 ≤ ppf = 0`) yet the single cell survives. -/
theorem c3_witness :
    (removeCellsPass envLys pBase baseState).cells = baseState.cells ∧
    1 ≤ (removeCellsPass envLys pBase baseState).cells.length :=
  c3_lysis_guard_single_cell envLys pBase baseState 0 rfl (by decide)

lemma mem_filter_map_sid (P : PShape → Bool) (shapes : List PShape)
    (hnd : (shapes.map PShape.sid).Nodup) (sh : PShape) (hm : sh ∈ shapes) :
    sh.sid ∈ (shapes.filter P).map PShape.sid ↔ P sh = true := by
  constructor
  · intro hmem
    rcases List.mem_map.mp hmem with ⟨sh', hsh', heq⟩
    rcases List.mem_filter.mp hsh' with ⟨hshm, hP⟩
    have he : sh' = sh := List.inj_on_of_nodup_map hnd hshm hm heq
    rwa [he] at hP
  · intro hP
    exact List.mem_map.mpr ⟨sh, List.mem_filter.mpr ⟨hm, hP⟩, rfl⟩

lemma removeOOBShapesPass_shapes_char (env : Env) (p : Params) (s : SimState)
    (hnd : (s.space.shapes.map PShape.sid).Nodup) :
    (removeOOBShapesPass env p s).space.shapes =
      s.space.shapes.filter (fun sh => !(oobY p (shapeBodyY s sh))) := by
  show (applyShapeRemovals env p
    (s.space.shapes.filter (fun sh => oobY p (shapeBodyY s sh)))
    s).space.shapes = _
  rw [applyShapeRemovals_shapes]
  refine List.filter_congr ?_
  intro sh hm
  have h := mem_filter_map_sid (fun sh => oobY p (shapeBodyY s sh))
    s.space.shapes hnd sh hm
  cases hb : oobY p (shapeBodyY s sh)
  · have hnm : sh.sid ∉
        (s.space.shapes.filter
          (fun sh => oobY p (shapeBodyY s sh))).map PShape.sid := by
      intro hmem
      have hP : oobY p (shapeBodyY s sh) = true := h.mp hmem
      rw [hb] at hP
      exact Bool.false_ne_true hP
    simp [hnm, hb]
  · have hmem := h.mpr hb
    simp [hmem, hb]

/-- C7 (confirmed): the world-level removal pass collects exactly the
shapes whose body's y-position is out of the trench bounds at entry, and
its apply loop emits, per collected shape, the removal of the body and the
shape followed immediately by one `space.step(dt)` — interleaved, one step
per removed body, never batched. -/
theorem c7_oob_shape_removal_interleaved (env : Env) (p : Params)
    (s : SimState) (hnd : (s.space.shapes.map PShape.sid).Nodup) :
    (removeOOBShapesPass env p s).trace =
      s.trace ++
        (s.space.shapes.filter (fun sh => oobY p (shapeBodyY s sh))).flatMap
          (fun sh =>
            [Ev.removeBody sh.bodyBid, Ev.removeShape sh.sid,
             Ev.step p.dtv]) ∧
    (removeOOBShapesPass env p s).stepCount =
      s.stepCount +
        (s.space.shapes.filter (fun sh => oobY p (shapeBodyY s sh))).length ∧
    (removeOOBShapesPass env p s).space.shapes =
      s.space.shapes.filter (fun sh => !(oobY p (shapeBodyY s sh))) ∧
    (removeOOBShapesPass env p s).space.bodies =
      s.space.bodies.filter (fun b =>
        decide (b ∉ (s.space.shapes.filter
          (fun sh => oobY p (shapeBodyY s sh))).map PShape.bodyBid)) :=
  ⟨applyShapeRemovals_trace env p _ s,
   applyShapeRemovals_stepCount env p _ s,
   removeOOBShapesPass_shapes_char env p s hnd,
   applyShapeRemovals_bodies env p _ s⟩

/-- Witness for C7 at a concrete input: the pass at `oobState` (one
out-of-bounds cell shape) removes the body and shape and steps once, in
that order. -/
theorem c7_witness :
    (removeOOBShapesPass envId pBase oobState).trace =
      oobState.trace ++
        (oobState.space.shapes.filter
          (fun sh => oobY pBase (shapeBodyY oobState sh))).flatMap
          (fun sh =>
            [Ev.removeBody sh.bodyBid, Ev.removeShape sh.sid,
             Ev.step pBase.dtv]) :=
  (c7_oob_shape_removal_interleaved envId pBase oobState (by decide)).1

/-- C4 (corrected): three of the four structural passes — the world-level
shape removal, the logical cell removal, and `wipe_space` — do follow the
collect-candidates-then-apply discipline: each equals its one-shot
re-specification, with the candidate set computed on the entry state.  The
division/growth pass does not (see the counterexample): it appends
daughters to the live list while iterating it. -/
theorem c4_collect_then_apply_passes (env : Env) (p : Params) (s : SimState)
    (hndS : (s.space.shapes.map PShape.sid).Nodup)
    (hndC : s.cells.Nodup) :
    (removeOOBShapesPass env p s).space.shapes =
      s.space.shapes.filter (fun sh => !(oobY p (shapeBodyY s sh))) ∧
    (removeCellsPass env p s).cells =
      s.cells.filter
        (fun a => decide (a ∉ (collectCellsToRemove env p s).1)) ∧
    (wipe_space s).space.bodies =
      s.space.bodies.filter
        (fun b => decide (b ∉ (wipePairs s).map Prod.fst)) ∧
    (wipe_space s).space.shapes =
      s.space.shapes.filter
        (fun sh =>
          decide (sh.sid ∉ ((wipePairs s).map Prod.snd).map PShape.sid)) := by
  refine ⟨removeOOBShapesPass_shapes_char env p s hndS, ?_, ?_, ?_⟩
  · unfold removeCellsPass
    simp only []
    exact applyCellRemovals_cells env p _ _ hndC
  · unfold wipe_space
    rw [applyRemoveShapes_bodies, applyRemoveBodies_bodies]
  · unfold wipe_space
    rw [applyRemoveShapes_shapes, applyRemoveBodies_shapes]

/-- Witness for C4 at a concrete input. -/
theorem c4_witness :
    (removeCellsPass envId pBase twoCellState).cells =
      twoCellState.cells.filter
        (fun a =>
          decide (a ∉ (collectCellsToRemove envId pBase twoCellState).1)) :=
  (c4_collect_then_apply_passes envId pBase twoCellState (by decide)
    (by decide)).2.1

/-- Counterexample for C4 as stated: the division/growth pass
(`update_pm_cells`) iterates the live list while appending to it, so at a
state with one division-ready cell it also processes the freshly appended
daughter in the same pass — 300 fine settling steps instead of the 150 its
collect-then-apply re-specification performs. -/
theorem c4_counterexample_division_pass :
    (update_pm_cells envId 2 divState).stepCount = 300 ∧
    (update_pm_cells_collect_apply envId divState).stepCount = 150 ∧
    (update_pm_cells envId 2 divState).stepCount ≠
      (update_pm_cells_collect_apply envId divState).stepCount := by
  refine ⟨?_, ?_, ?_⟩
  · decide
  · decide
  · decide

/-- C5 (confirmed, with the body/shape lists index-aligned as the
pairwise `space.add` calls of the embedded code keep them): `wipe_space`
removes every dynamic body together with its own shape and leaves every
static body and every static body's shape untouched, so the space retains
no dynamic body and no shape of a dynamic body. -/
theorem c5_wipe_space_removes_dynamic_pairs (s : SimState)
    (hal : s.space.bodies = s.space.shapes.map PShape.bodyBid)
    (hnd : (s.space.shapes.map PShape.sid).Nodup) :
    (wipe_space s).space.bodies =
      s.space.bodies.filter
        (fun bid => !(decide ((getBody s bid).btype = 0))) ∧
    (wipe_space s).space.shapes =
      s.space.shapes.filter
        (fun sh => !(decide ((getBody s sh.bodyBid).btype = 0))) ∧
    (∀ bid ∈ (wipe_space s).space.bodies, (getBody s bid).btype ≠ 0) ∧
    (∀ sh ∈ s.space.shapes, (getBody s sh.bodyBid).btype ≠ 0 →
        sh ∈ (wipe_space s).space.shapes) := by
  have hzip : s.space.bodies.zip s.space.shapes =
      s.space.shapes.map (fun sh => (sh.bodyBid, sh)) := by
    rw [hal]
    calc (s.space.shapes.map PShape.bodyBid).zip s.space.shapes
        = (s.space.shapes.map PShape.bodyBid).zip
            (s.space.shapes.map id) := by rw [List.map_id]
      _ = s.space.shapes.map (fun sh => (sh.bodyBid, sh)) :=
          List.zip_map' PShape.bodyBid id s.space.shapes
  have hpairs : wipePairs s =
      (s.space.shapes.filter
        (fun sh => decide ((getBody s sh.bodyBid).btype = 0))).map
          (fun sh => (sh.bodyBid, sh)) := by
    unfold wipePairs
    rw [hzip, List.filter_map]
    rfl
  have fstmap : (wipePairs s).map Prod.fst =
      (s.space.shapes.filter
        (fun sh => decide ((getBody s sh.bodyBid).btype = 0))).map
          PShape.bodyBid := by
    rw [hpairs, List.map_map]
    rfl
  have sndmap : (wipePairs s).map Prod.snd =
      s.space.shapes.filter
        (fun sh => decide ((getBody s sh.bodyBid).btype = 0)) := by
    rw [hpairs, List.map_map]
    exact List.map_id _
  have e1 : (wipe_space s).space.bodies =
      s.space.bodies.filter
        (fun bid => !(decide ((getBody s bid).btype = 0))) := by
    have hb1 : (wipe_space s).space.bodies =
        s.space.bodies.filter
          (fun b => decide (b ∉ (wipePairs s).map Prod.fst)) := by
      unfold wipe_space
      rw [applyRemoveShapes_bodies, applyRemoveBodies_bodies]
    rw [hb1, fstmap]
    refine List.filter_congr ?_
    intro bid hmem
    rw [hal] at hmem
    rcases List.mem_map.mp hmem with ⟨sh, hsh, rfl⟩
    by_cases hdy : (getBody s sh.bodyBid).btype = 0
    · have hmem2 : sh.bodyBid ∈
          (s.space.shapes.filter
            (fun sh => decide ((getBody s sh.bodyBid).btype = 0))).map
              PShape.bodyBid :=
        List.mem_map.mpr
          ⟨sh, List.mem_filter.mpr ⟨hsh, by simp [hdy]⟩, rfl⟩
      simp [hmem2, hdy]
    · have hnm : sh.bodyBid ∉
          (s.space.shapes.filter
            (fun sh => decide ((getBody s sh.bodyBid).btype = 0))).map
              PShape.bodyBid := by
        intro hmem2
        rcases List.mem_map.mp hmem2 with ⟨sh', hsh', heq⟩
        rcases List.mem_filter.mp hsh' with ⟨_, hP⟩
        apply hdy
        rw [← heq]
        exact of_decide_eq_true hP
      simp [hnm, hdy]
  have e2 : (wipe_space s).space.shapes =
      s.space.shapes.filter
        (fun sh => !(decide ((getBody s sh.bodyBid).btype = 0))) := by
    have hs1 : (wipe_space s).space.shapes =
        s.space.shapes.filter
          (fun sh =>
            decide (sh.sid ∉ ((wipePairs s).map Prod.snd).map PShape.sid)) := by
      unfold wipe_space
      rw [applyRemoveShapes_shapes, applyRemoveBodies_shapes]
    rw [hs1, sndmap]
    refine List.filter_congr ?_
    intro sh hm
    have h := mem_filter_map_sid
      (fun sh => decide ((getBody s sh.bodyBid).btype = 0))
      s.space.shapes hnd sh hm
    by_cases hdy : (getBody s sh.bodyBid).btype = 0
    · have hmem2 := h.mpr (by simp [hdy])
      simp [hmem2, hdy]
    · have hnm : sh.sid ∉
          (s.space.shapes.filter
            (fun sh => decide ((getBody s sh.bodyBid).btype = 0))).map
              PShape.sid := by
        intro hmem2
        have hP : decide ((getBody s sh.bodyBid).btype = 0) = true :=
          h.mp hmem2
        exact hdy (of_decide_eq_true hP)
      simp [hnm, hdy]
  refine ⟨e1, e2, ?_, ?_⟩
  · intro bid hmem
    rw [e1] at hmem
    have hP := (List.mem_filter.mp hmem).2
    simpa using hP
  · intro sh hm hst
    rw [e2]
    exact List.mem_filter.mpr ⟨hm, by simpa using hst⟩

/-- Witness for C5 at a concrete input: from a space holding one static
trench pair and one dynamic cell pair, `wipe_space` keeps exactly the
static shape. -/
theorem c5_witness :
    (wipe_space mixState).space.shapes =
      mixState.space.shapes.filter
        (fun sh => !(decide ((getBody mixState sh.bodyBid).btype = 0))) :=
  (c5_wipe_space_removes_dynamic_pairs mixState (by decide) (by decide)).2.1

lemma findCell_updateCellHeap_self :
    ∀ (heap : List (ℕ × Cell)) (cid : ℕ) (f : Cell → Cell),
      findCell (updateCellHeap heap cid f) cid =
        (findCell heap cid).map f
  | [], _, _ => rfl
  | kv :: rest, cid, f => by
    by_cases hk : kv.1 = cid
    · rw [updateCellHeap, List.map_cons, if_pos hk, findCell, findCell,
        if_pos hk, if_pos hk]
      rfl
    · rw [updateCellHeap, List.map_cons, if_neg hk, findCell, findCell,
        if_neg hk, if_neg hk]
      exact findCell_updateCellHeap_self rest cid f

lemma getCell_update_length (s : SimState) (cid : ℕ)
    (h : (findCell s.cellHeap cid).isSome) :
    getCell (update_length s cid) cid = grownCell (getCell s cid) := by
  show (findCell (updateCellHeap s.cellHeap cid grownCell) cid).getD
      defaultCell = grownCell ((findCell s.cellHeap cid).getD defaultCell)
  rw [findCell_updateCellHeap_self]
  rcases Option.isSome_iff_exists.mp h with ⟨c, hc⟩
  rw [hc]
  rfl

lemma update_length_trace (s : SimState) (cid : ℕ) :
    (update_length s cid).trace = s.trace := rfl

lemma create_pm_cell_nondiv_trace (s : SimState) (cid : ℕ) :
    (create_pm_cell_nondiv s cid).trace = s.trace := rfl

lemma cell_adder_trace (s : SimState) (cid : ℕ) :
    (cell_adder s cid).trace =
      s.trace ++ [Ev.addPair (getCell s cid).bodyBid
        (getCell s cid).shapeSid] := rfl

lemma processCell_nondiv_fields (env : Env) (s : SimState) (cid : ℕ)
    (h : is_dividing (getCell (update_length s cid) cid) = false) :
    (processCell env s cid).cells = s.cells ∧
    (processCell env s cid).stepCount = s.stepCount + 150 ∧
    (processCell env s cid).cellHeap =
      updateCellHeap (updateCellHeap s.cellHeap cid grownCell) cid
        (fun c0 => { c0 with bodyBid := s.nextBid,
                             shapeSid := s.nextSid }) ∧
    ∃ b sd, (processCell env s cid).trace =
      s.trace ++ (Ev.addPair b sd ::
        List.replicate 150 (Ev.step (1 / 100))) := by
  simp only [processCell]
  rw [h, if_neg Bool.false_ne_true]
  refine ⟨?_, ?_, ?_, ?_⟩
  · rw [settleSteps_cells]
    rfl
  · rw [settleSteps_stepCount]
    rfl
  · rw [settleSteps_cellHeap]
    rfl
  · refine
      ⟨(getCell (create_pm_cell_nondiv (update_length s cid) cid)
          cid).bodyBid,
       (getCell (create_pm_cell_nondiv (update_length s cid) cid)
          cid).shapeSid, ?_⟩
    rw [settleSteps_trace, cell_adder_trace, create_pm_cell_nondiv_trace,
      update_length_trace, List.append_assoc]
    rfl

lemma nodup_get?_ne (l : List ℕ) (h : l.Nodup) (i j : ℕ) (hij : i ≠ j)
    (a : ℕ) (ha : l.get? i = some a) (b : ℕ) (hb : l.get? j = some b) :
    a ≠ b := by
  rcases List.get?_eq_some.mp ha with ⟨hi, hga⟩
  rcases List.get?_eq_some.mp hb with ⟨hj, hgb⟩
  intro hab
  apply hij
  have heq : l.get ⟨i, hi⟩ = l.get ⟨j, hj⟩ := by rw [hga, hgb, hab]
  have hfin := (List.Nodup.get_inj_iff h).mp heq
  exact congrArg Fin.val hfin

lemma c6_go (env : Env) :
    ∀ (fuel i : ℕ) (s : SimState),
      s.cells.length ≤ i + fuel →
      s.cells.Nodup →
      (∀ j cid, s.cells.get? j = some cid → i ≤ j →
        is_dividing (grownCell (getCell s cid)) = false ∧
        (findCell s.cellHeap cid).isSome) →
      (update_pm_cells_go env fuel i s).stepCount =
        s.stepCount + 150 * (s.cells.length - i) ∧
      ∃ regs : List (ℕ × ℕ),
        regs.length = s.cells.length - i ∧
        (update_pm_cells_go env fuel i s).trace =
          s.trace ++ (regs.map (fun r =>
            Ev.addPair r.1 r.2 ::
              List.replicate 150 (Ev.step (1 / 100)))).flatten
  | 0, i, s, hlen, _, _ => by
    have h0 : s.cells.length - i = 0 := by omega
    refine ⟨?_, ⟨[], ?_, ?_⟩⟩
    · show s.stepCount = s.stepCount + 150 * (s.cells.length - i)
      omega
    · rw [h0]
      rfl
    · show s.trace = s.trace ++ _
      simp
  | fuel + 1, i, s, hlen, hnd, hkey => by
    rw [update_pm_cells_go]
    cases hget : s.cells.get? i with
    | none =>
      have hge : s.cells.length ≤ i := List.get?_eq_none.mp hget
      have h0 : s.cells.length - i = 0 := by omega
      refine ⟨?_, ⟨[], ?_, ?_⟩⟩
      · show s.stepCount = s.stepCount + 150 * (s.cells.length - i)
        omega
      · rw [h0]
        rfl
      · show s.trace = s.trace ++ _
        simp
    | some cid =>
      obtain ⟨hno, hsome⟩ := hkey i cid hget (Nat.le_refl i)
      have hdiv' : is_dividing (getCell (update_length s cid) cid)
          = false := by
        rw [getCell_update_length s cid hsome]
        exact hno
      obtain ⟨hc, hsc, hch, b, sd, htr⟩ :=
        processCell_nondiv_fields env s cid hdiv'
      rcases List.get?_eq_some.mp hget with ⟨hilt, _⟩
      have hlen' : (processCell env s cid).cells.length ≤ (i + 1) + fuel := by
        rw [hc]
        omega
      have hnd' : (processCell env s cid).cells.Nodup := by
        rw [hc]
        exact hnd
      have hkey' : ∀ j cid',
          (processCell env s cid).cells.get? j = some cid' → i + 1 ≤ j →
          is_dividing (grownCell (getCell (processCell env s cid) cid'))
            = false ∧
          (findCell (processCell env s cid).cellHeap cid').isSome := by
        intro j cid' hg hj
        rw [hc] at hg
        have hji : i ≠ j := by omega
        have hner : cid ≠ cid' :=
          nodup_get?_ne s.cells hnd i j hji cid hget cid' hg
        have hfind : findCell (processCell env s cid).cellHeap cid' =
            findCell s.cellHeap cid' := by
          rw [hch, findCell_updateCellHeap_ne _ _ _ _ hner.symm,
            findCell_updateCellHeap_ne _ _ _ _ hner.symm]
        have hgc : getCell (processCell env s cid) cid' = getCell s cid' := by
          unfold getCell
          rw [hfind]
        obtain ⟨ha1, ha2⟩ := hkey j cid' hg (by omega)
        exact ⟨by rw [hgc]; exact ha1, by rw [hfind]; exact ha2⟩
      obtain ⟨ih1, regs', hrl, hrt⟩ :=
        c6_go env fuel (i + 1) (processCell env s cid) hlen' hnd' hkey'
      constructor
      · rw [ih1, hsc, hc]
        omega
      · refine ⟨(b, sd) :: regs', ?_, ?_⟩
        · simp only [List.length_cons]
          rw [hrl, hc]
          omega
        · rw [hrt, htr]
          simp [List.append_assoc]

/-- C6 (corrected): the 150 extra settling steps at sub-interval 1/100 run
inside the per-cell loop, immediately after each cell's body/shape is
registered — so an invocation of `update_pm_cells` over n live
(non-dividing) cells performs 150·n settling steps, not a fixed 150 per
invocation; the trace is a chunk per cell, each an `add` event followed by
150 fine steps. -/
theorem c6_settle_steps_per_cell (env : Env) (fuel : ℕ) (s : SimState)
    (hfuel : s.cells.length ≤ fuel)
    (hnd : s.cells.Nodup)
    (hkey : ∀ cid ∈ s.cells,
      is_dividing (grownCell (getCell s cid)) = false ∧
      (findCell s.cellHeap cid).isSome) :
    (update_pm_cells env fuel s).stepCount =
      s.stepCount + 150 * s.cells.length ∧
    ∃ regs : List (ℕ × ℕ),
      regs.length = s.cells.length ∧
      (update_pm_cells env fuel s).trace =
        s.trace ++ (regs.map (fun r =>
          Ev.addPair r.1 r.2 ::
            List.replicate 150 (Ev.step (1 / 100)))).flatten := by
  have h := c6_go env fuel 0 s (by omega) hnd
    (fun j cid hg _ => hkey cid (List.get?_mem hg))
  simpa [update_pm_cells] using h

/-- Witness for C6 at a concrete input with two non-dividing cells: 300
settling steps for one invocation. -/
theorem c6_witness :
    (update_pm_cells envId 2 twoCellState).stepCount =
      twoCellState.stepCount + 150 * twoCellState.cells.length :=
  (c6_settle_steps_per_cell envId 2 twoCellState (by decide) (by decide)
    (by decide)).1

/-- Counterexample for C6 as stated: one invocation of the
synchronization pass over two (non-dividing) live cells performs 300
fine settling steps, not 150. -/
theorem c6_counterexample_two_cells :
    (update_pm_cells envId 2 twoCellState).stepCount = 300 ∧
    (300 : ℕ) ≠ 150 := by
  constructor
  · decide
  · decide
